import Mathlib

/-!
# Verification of the React Project Automator provisioning pipeline

This file gives a shallow embedding, in Lean 4, of the core of the
React-Project-Automator repository (the file `src/unnamed/part_001`):

* `ProjectConfig`               — the dataclass holding the user's choices;
* `ProjectWorker`               — the worker thread that runs the provisioning
                                  pipeline (`ProjectWorker.run` and its
                                  `setup_*` stage methods), modelled as a pure
                                  function from an environment (the outcomes of
                                  the external process invocations and of the
                                  git library calls) to the list of observable
                                  events the run produces: progress signals,
                                  log lines, process invocations, file writes,
                                  directory creations and the final
                                  success/failure signal;
* `GitWorker`                   — the independent git-operation worker;
* the Process Runner (`ProjectWorker.run_process`), modelled against the
  documented semantics of Qt's `QProcess`.

File contents written by the pipeline are embedded bit-for-bit: JSON files
carry a `Json` value mirroring the Python dict passed to `json.dump`, and
plain-text templates carry the exact (stripped) string literal of the source.
-/

namespace RPA

/-! ## JSON values (the Python dicts handed to `json.dump`) -/

/-- JSON values, used for the configuration files the pipeline serializes
with `json.dump` / `json.dumps`. -/
inductive Json where
  | null : Json
  | bool (b : Bool) : Json
  | num (n : Int) : Json
  | str (s : String) : Json
  | arr (elems : List Json) : Json
  | obj (fields : List (String × Json)) : Json

/-- Look up a top-level key of a JSON object (`none` on non-objects). -/
def Json.lookup : Json → String → Option Json
  | .obj fields, key => List.lookup key fields
  | _, _ => none

/-- Top-level keys of a JSON object, in order. -/
def Json.keys : Json → List String
  | .obj fields => fields.map Prod.fst
  | _ => []

/-! ## Observable events of a pipeline run -/

/-- Content of a file written by the pipeline.

* `json j`             — the source calls `json.dump(obj, f)`;
* `jsModuleExports j`  — the source writes `"module.exports = " + json.dumps(obj)`;
* `text s`             — the source writes a (stripped) string literal verbatim. -/
inductive FileContent where
  | json (j : Json) : FileContent
  | jsModuleExports (j : Json) : FileContent
  | text (s : String) : FileContent

/-- One observable event of a `ProjectWorker` run, in emission order.

`progress` and `log` model the `progress` / `terminal_output` Qt signals;
`chdir`, `mkdirP` (`Path.mkdir(parents=True, exist_ok=True)`), `makedirs`
(`os.makedirs(..., exist_ok=True)`) and `writeFile` model the filesystem
effects; `procCall` models one `self.run_process(cmd)` invocation;
`gitInit`/`gitAdd`/`gitCommit` model the GitPython calls of the
version-control stage; `finished` models the terminal `finished` signal.
File paths are as in the source: relative to the project directory (the
worker `os.chdir`s into it before writing). -/
inductive Event where
  | progress (pct : Nat) (msg : String) : Event
  | log (msg : String) (level : String) : Event
  | chdir (path : String) : Event
  | mkdirP (path : String) : Event
  | makedirs (path : String) : Event
  | procCall (cmd : List String) : Event
  | writeFile (path : String) (content : FileContent) : Event
  | gitInit : Event
  | gitAdd (paths : List String) : Event
  | gitCommit (msg : String) : Event
  | finished (ok : Bool) (msg : String) : Event

/-! ## Sequencing with Python-exception semantics

A pipeline step yields the list of events it emitted, and either `.ok ()` or
`.error msg` when a Python `Exception(msg)` escapes it.  `pseq` is Python's
statement sequencing: a raised exception skips the rest of the block but the
events already emitted remain. -/

/-- Result of one pipeline step: events emitted so far, and whether an
exception is propagating. -/
def Step : Type := List Event × Except String Unit

/-- Emit one event and continue normally. -/
def emitE (e : Event) : Step := ([e], Except.ok ())

/-- A step that does nothing (a skipped Python statement). -/
def pnop : Step := ([], Except.ok ())

/-- Raise `Exception(msg)`. -/
def raiseE (msg : String) : Step := ([], Except.error msg)

/-- Sequence two steps: if the first raised, the second never runs. -/
def pseq (a b : Step) : Step :=
  match a.2 with
  | Except.ok _ => (a.1 ++ b.1, b.2)
  | Except.error e => (a.1, Except.error e)

/-- Sequence a block of steps in order. -/
def stepSeq : List Step → Step
  | [] => pnop
  | s :: rest => pseq s (stepSeq rest)

/-! ## The external environment of a run -/

/-- Outcomes of the external world during one run.

* `proc cmd` — whether `self.run_process(cmd)` reports success for the
  command `cmd` (exit code zero, see the Process Runner model below);
* `gitOk` / `gitErr` — whether the GitPython calls of the version-control
  stage succeed, and the exception text if the first of them
  (`git.Repo.init()`) raises. -/
structure Env where
  proc : List String → Bool
  gitOk : Bool
  gitErr : String

/-! ## ProjectConfig (the `@dataclass ProjectConfig` of the source) -/

/-- Configuration for React project creation (source `ProjectConfig`). -/
structure ProjectConfig where
  name : String
  template : String
  dependencies : List String
  dev_dependencies : List String
  git_integration : Bool
  testing : Bool
  test_framework : Option String
  styling_solution : String
  typescript : Bool
  eslint : Bool
  prettier : Bool
  package_manager : String
  router : Bool
  state_management : Option String
  ci_cd : Bool
  deployment_platform : Option String

/-- Source `ProjectConfig.create_default()`. -/
def ProjectConfig.create_default : ProjectConfig where
  name := ""
  template := "react"
  dependencies := []
  dev_dependencies := []
  git_integration := true
  testing := true
  test_framework := some "vitest"
  styling_solution := "Tailwind CSS"
  typescript := true
  eslint := true
  prettier := true
  package_manager := "npm"
  router := true
  state_management := some "Redux Toolkit"
  ci_cd := true
  deployment_platform := some "Vercel"

/-- Python truthiness of an `Optional[str]` field (`None` and the empty
string are falsy). -/
def truthyOpt : Option String → Bool
  | none => false
  | some s => !(s == "")

/-- Worker state: the constructor arguments of `ProjectWorker.__init__`. -/
structure ProjectWorker where
  config : ProjectConfig
  npm_path : String
  npx_path : String
  project_directory : String

/-- Source `ProjectWorker.emit_log(message, level="INFO")`; the default
level `"INFO"` is always passed explicitly below. -/
def ProjectWorker.emit_log (message : String) (level : String) : Step :=
  emitE (Event.log message level)

/-- The recurring source idiom `success = self.run_process(cmd)` followed by
`if not success: raise Exception(errMsg)`: the invocation event is emitted,
then an exception propagates exactly when the environment reports failure. -/
def checkedProc (env : Env) (cmd : List String) (errMsg : String) : Step :=
  ([Event.procCall cmd], if env.proc cmd then Except.ok () else Except.error errMsg)

end RPA

namespace RPA

/-! ## Template file contents (stripped string literals of the source)

Brace characters and apostrophes inside the literals are written with `\x7b`,
`\x7d` and `\x27` escapes; the string values are byte-identical to what the
source writes. -/

/-- Stripped template literal from the source (written verbatim to disk). -/
def tailwind_css_content : String :=
  "@tailwind base;\n@tailwind components;\n@tailwind utilities;"

/-- Stripped template literal from the source (written verbatim to disk). -/
def styled_components_theme : String :=
  "export const theme = \x7b\n    colors: \x7b\n        primary: \x27#2563eb\x27,\n        secondary: \x27#4b5563\x27,\n        background: \x27#ffffff\x27,\n        surface: \x27#f3f4f6\x27,\n        text: \x27#1f2937\x27,\n        accent: \x27#3b82f6\x27,\n    \x7d,\n    breakpoints: \x7b\n        sm: \x27640px\x27,\n        md: \x27768px\x27,\n        lg: \x271024px\x27,\n        xl: \x271280px\x27,\n    \x7d,\n    spacing: \x7b\n        xs: \x270.25rem\x27,\n        sm: \x270.5rem\x27,\n        md: \x271rem\x27,\n        lg: \x271.5rem\x27,\n        xl: \x272rem\x27,\n    \x7d,\n    typography: \x7b\n        h1: \x272.25rem\x27,\n        h2: \x271.875rem\x27,\n        h3: \x271.5rem\x27,\n        body: \x271rem\x27,\n        small: \x270.875rem\x27,\n    \x7d,\n\x7d"

/-- Stripped template literal from the source (written verbatim to disk). -/
def css_modules_example : String :=
  ".container \x7b\n    padding: 2rem;\n\x7d\n\n.title \x7b\n    font-size: 2rem;\n    font-weight: bold;\n    color: #2563eb;\n\x7d\n\n.button \x7b\n    padding: 0.5rem 1rem;\n    background-color: #2563eb;\n    color: white;\n    border-radius: 0.375rem;\n    transition: background-color 0.2s;\n\x7d\n\n.button:hover \x7b\n    background-color: #1d4ed8;\n\x7d"

/-- Stripped template literal from the source (written verbatim to disk). -/
def vitest_setup : String :=
  "import \x27@testing-library/jest-dom\x27\nimport \x7b expect, afterEach \x7d from \x27vitest\x27\nimport \x7b cleanup \x7d from \x27@testing-library/react\x27\n\nafterEach(() => \x7b\n    cleanup()\n\x7d)"

/-- Stripped template literal from the source (written verbatim to disk). -/
def vitest_example_test : String :=
  "import \x7b render, screen \x7d from \x27@testing-library/react\x27\nimport \x7b describe, it, expect \x7d from \x27vitest\x27\nimport App from \x27../App\x27\n\ndescribe(\x27App\x27, () => \x7b\n    it(\x27renders hello world\x27, () => \x7b\n        render(<App />)\n        expect(screen.getByText(/hello/i)).toBeInTheDocument()\n    \x7d)\n\x7d)"

/-- Stripped template literal from the source (written verbatim to disk). -/
def router_config : String :=
  "import \x7b createBrowserRouter \x7d from \x27react-router-dom\x27\nimport App from \x27../App\x27\nimport Home from \x27../pages/Home\x27\nimport About from \x27../pages/About\x27\nimport NotFound from \x27../pages/NotFound\x27\n\nexport const router = createBrowserRouter([\n    \x7b\n        path: \x27/\x27,\n        element: <App />,\n        children: [\n            \x7b\n                index: true,\n                element: <Home />\n            \x7d,\n            \x7b\n                path: \x27about\x27,\n                element: <About />\n            \x7d,\n            \x7b\n                path: \x27*\x27,\n                element: <NotFound />\n            \x7d\n        ]\n    \x7d\n])"

/-- Stripped template literal from the source (written verbatim to disk). -/
def page_Home : String :=
  "export default function Home() \x7b\n    return (\n        <div>\n            <h1>Home Page</h1>\n            <p>Welcome to our app!</p>\n        </div>\n    )\n\x7d"

/-- Stripped template literal from the source (written verbatim to disk). -/
def page_About : String :=
  "export default function About() \x7b\n    return (\n        <div>\n            <h1>About Page</h1>\n            <p>Learn more about us.</p>\n        </div>\n    )\n\x7d"

/-- Stripped template literal from the source (written verbatim to disk). -/
def page_NotFound : String :=
  "export default function NotFound() \x7b\n    return (\n        <div>\n            <h1>404</h1>\n            <p>Page not found.</p>\n        </div>\n    )\n\x7d"

/-- Stripped template literal from the source (written verbatim to disk). -/
def redux_store_config : String :=
  "import \x7b configureStore \x7d from \x27@reduxjs/toolkit\x27\nimport counterReducer from \x27./slices/counterSlice\x27\n\nexport const store = configureStore(\x7b\n    reducer: \x7b\n        counter: counterReducer\n    \x7d\n\x7d)\n\nexport type RootState = ReturnType<typeof store.getState>\nexport type AppDispatch = typeof store.dispatch"

/-- Stripped template literal from the source (written verbatim to disk). -/
def redux_counter_slice : String :=
  "import \x7b createSlice, PayloadAction \x7d from \x27@reduxjs/toolkit\x27\n\ninterface CounterState \x7b\n    value: number\n\x7d\n\nconst initialState: CounterState = \x7b\n    value: 0\n\x7d\n\nexport const counterSlice = createSlice(\x7b\n    name: \x27counter\x27,\n    initialState,\n    reducers: \x7b\n        increment: (state) => \x7b\n            state.value += 1\n        \x7d,\n        decrement: (state) => \x7b\n            state.value -= 1\n        \x7d,\n        incrementByAmount: (state, action: PayloadAction<number>) => \x7b\n            state.value += action.payload\n        \x7d\n    \x7d\n\x7d)\n\nexport const \x7b increment, decrement, incrementByAmount \x7d = counterSlice.actions\nexport default counterSlice.reducer"

/-- Stripped template literal from the source (written verbatim to disk). -/
def zustand_store : String :=
  "import create from \x27zustand\x27\n\ninterface CounterState \x7b\n    count: number\n    increment: () => void\n    decrement: () => void\n    reset: () => void\n\x7d\n\nexport const useStore = create<CounterState>((set) => (\x7b\n    count: 0,\n    increment: () => set((state) => (\x7b count: state.count + 1 \x7d)),\n    decrement: () => set((state) => (\x7b count: state.count - 1 \x7d)),\n    reset: () => set(\x7b count: 0 \x7d)\n\x7d))"

/-- Stripped template literal from the source (written verbatim to disk). -/
def cicd_workflow : String :=
  "name: CI/CD\n\non:\n  push:\n    branches: [ main ]\n  pull_request:\n    branches: [ main ]\n\njobs:\n  build:\n    runs-on: ubuntu-latest\n\n    strategy:\n      matrix:\n        node-version: [16.x, 18.x]\n\n    steps:\n    - uses: actions/checkout@v2\n    \n    - name: Use Node.js $\x7b\x7b matrix.node-version \x7d\x7d\n      uses: actions/setup-node@v2\n      with:\n        node-version: $\x7b\x7b matrix.node-version \x7d\x7d\n        \n    - name: Install dependencies\n      run: npm ci\n      \n    - name: Run tests\n      run: npm test\n      \n    - name: Build\n      run: npm run build\n      \n    - name: Lint\n      run: npm run lint"

/-- Stripped template literal from the source (written verbatim to disk). -/
def vercel_config_text : String :=
  "\x7b\n    \"version\": 2,\n    \"builds\": [\n        \x7b\n            \"src\": \"package.json\",\n            \"use\": \"@vercel/static-build\",\n            \"config\": \x7b\n                \"distDir\": \"dist\"\n            \x7d\n        \x7d\n    ],\n    \"routes\": [\n        \x7b\n            \"src\": \"/(.*)\",\n            \"dest\": \"/index.html\"\n        \x7d\n    ]\n\x7d"

/-- Stripped template literal from the source (written verbatim to disk). -/
def gitignore_content : String :=
  "# Dependencies\nnode_modules\n.pnp\n.pnp.js\n\n# Testing\ncoverage\n\n# Production\nbuild\ndist\n\n# Misc\n.DS_Store\n.env.local\n.env.development.local\n.env.test.local\n.env.production.local\n\n# Debug\nnpm-debug.log*\nyarn-debug.log*\nyarn-error.log*\n\n# Editor\n.idea\n.vscode\n*.sublime-workspace\n*.sublime-project\n\n# TypeScript\n*.tsbuildinfo\n\n# Optional npm cache directory\n.npm\n\n# Optional eslint cache\n.eslintcache\n\n# Vercel\n.vercel"

end RPA

namespace RPA

/-! ## JSON configuration objects (the Python dicts of the source) -/

/-- The `compilerOptions` sub-object of the `ts_config` dict of
`ProjectWorker.setup_typescript`. -/
def ts_compilerOptions : Json :=
  Json.obj [
      ("target", Json.str "ESNext"),
      ("lib", Json.arr [Json.str "DOM", Json.str "DOM.Iterable", Json.str "ESNext"]),
      ("allowJs", Json.bool false),
      ("skipLibCheck", Json.bool true),
      ("esModuleInterop", Json.bool true),
      ("allowSyntheticDefaultImports", Json.bool true),
      ("strict", Json.bool true),
      ("forceConsistentCasingInFileNames", Json.bool true),
      ("module", Json.str "ESNext"),
      ("moduleResolution", Json.str "Node"),
      ("resolveJsonModule", Json.bool true),
      ("isolatedModules", Json.bool true),
      ("noEmit", Json.bool true),
      ("jsx", Json.str "react-jsx"),
      ("baseUrl", Json.str "."),
      ("paths", Json.obj [("@/*", Json.arr [Json.str "./src/*"])])
  ]

/-- The `ts_config` dict of `ProjectWorker.setup_typescript`. -/
def ts_config : Json :=
  Json.obj [
    ("compilerOptions", ts_compilerOptions),
    ("include", Json.arr [Json.str "src"]),
    ("references", Json.arr [Json.obj [("path", Json.str "./tsconfig.node.json")]])
  ]

/-- The `tailwind_config` dict of `ProjectWorker.setup_tailwind`. -/
def tailwind_config : Json :=
  Json.obj [
    ("content", Json.arr [Json.str "./index.html", Json.str "./src/**/*.\x7bjs,ts,jsx,tsx\x7d"]),
    ("theme", Json.obj [("extend", Json.obj [])]),
    ("plugins", Json.arr [])
  ]

/-- The `eslint_config` dict of `ProjectWorker.setup_linting`. -/
def eslint_config : Json :=
  Json.obj [
    ("env", Json.obj [("browser", Json.bool true), ("es2021", Json.bool true)]),
    ("extends", Json.arr [
      Json.str "eslint:recommended",
      Json.str "plugin:react/recommended",
      Json.str "plugin:react-hooks/recommended",
      Json.str "plugin:jsx-a11y/recommended",
      Json.str "plugin:@typescript-eslint/recommended"]),
    ("parser", Json.str "@typescript-eslint/parser"),
    ("parserOptions", Json.obj [
      ("ecmaFeatures", Json.obj [("jsx", Json.bool true)]),
      ("ecmaVersion", Json.num 12),
      ("sourceType", Json.str "module")]),
    ("plugins", Json.arr [
      Json.str "react", Json.str "react-hooks", Json.str "jsx-a11y",
      Json.str "@typescript-eslint"]),
    ("rules", Json.obj [
      ("react/react-in-jsx-scope", Json.str "off"),
      ("react/prop-types", Json.str "off")]),
    ("settings", Json.obj [("react", Json.obj [("version", Json.str "detect")])])
  ]

/-- The `prettier_config` dict of `ProjectWorker.setup_linting`. -/
def prettier_config : Json :=
  Json.obj [
    ("semi", Json.bool true),
    ("trailingComma", Json.str "es5"),
    ("singleQuote", Json.bool true),
    ("printWidth", Json.num 80),
    ("tabWidth", Json.num 2),
    ("useTabs", Json.bool false),
    ("bracketSpacing", Json.bool true),
    ("jsxBracketSameLine", Json.bool false)
  ]

end RPA

namespace RPA

/-! ## The pipeline stage methods of `ProjectWorker` -/

/-- Source `ProjectWorker.setup_typescript`: log, then `json.dump(ts_config)`
into `tsconfig.json`. -/
def ProjectWorker.setup_typescript (_w : ProjectWorker) : Step :=
  stepSeq [
    ProjectWorker.emit_log "Setting up TypeScript..." "INFO",
    emitE (Event.writeFile "tsconfig.json" (FileContent.json ts_config))
  ]

/-- Source `ProjectWorker.setup_tailwind`: install the dev dependencies, run
`npx tailwindcss init -p`, overwrite `tailwind.config.js`, write the three
directives into `src/index.css`.  Each failed invocation raises. -/
def ProjectWorker.setup_tailwind (w : ProjectWorker) (env : Env) : Step :=
  stepSeq [
    checkedProc env [w.npm_path, "install", "-D", "tailwindcss", "postcss", "autoprefixer"]
      "Failed to install Tailwind CSS",
    checkedProc env [w.npx_path, "tailwindcss", "init", "-p"]
      "Failed to initialize Tailwind CSS",
    emitE (Event.writeFile "tailwind.config.js" (FileContent.jsModuleExports tailwind_config)),
    emitE (Event.writeFile "src/index.css" (FileContent.text tailwind_css_content))
  ]

/-- Source `ProjectWorker.setup_styled_components`: the dependency list gets
`@types/styled-components` appended when `typescript` is set. -/
def ProjectWorker.setup_styled_components (w : ProjectWorker) (env : Env) : Step :=
  stepSeq [
    checkedProc env
      ([w.npm_path, "install", "styled-components"] ++
        (if w.config.typescript then ["@types/styled-components"] else []))
      "Failed to install Styled Components",
    emitE (Event.makedirs "src/styles"),
    emitE (Event.writeFile "src/styles/theme.ts" (FileContent.text styled_components_theme))
  ]

/-- Source `ProjectWorker.setup_css_modules`: write one example scoped
stylesheet; no package install. -/
def ProjectWorker.setup_css_modules (_w : ProjectWorker) : Step :=
  stepSeq [
    emitE (Event.makedirs "src/styles"),
    emitE (Event.writeFile "src/styles/Example.module.css" (FileContent.text css_modules_example))
  ]

/-- Source `ProjectWorker.setup_styling`: log, then dispatch by string
equality on `styling_solution`; any unrecognized value falls through with no
effect. -/
def ProjectWorker.setup_styling (w : ProjectWorker) (env : Env) : Step :=
  stepSeq [
    ProjectWorker.emit_log ("Setting up " ++ w.config.styling_solution ++ "...") "INFO",
    (if w.config.styling_solution == "Tailwind CSS" then
      ProjectWorker.setup_tailwind w env
    else if w.config.styling_solution == "Styled Components" then
      ProjectWorker.setup_styled_components w env
    else if w.config.styling_solution == "CSS Modules" then
      ProjectWorker.setup_css_modules w
    else pnop)
  ]

/-- Source `ProjectWorker.setup_linting`: the ESLint block runs when
`eslint` is set, the Prettier block when `prettier` is set. -/
def ProjectWorker.setup_linting (w : ProjectWorker) (env : Env) : Step :=
  stepSeq [
    (if w.config.eslint then
      stepSeq [
        ProjectWorker.emit_log "Setting up ESLint..." "INFO",
        checkedProc env [w.npm_path, "install", "-D",
          "eslint", "eslint-plugin-react", "eslint-plugin-react-hooks",
          "eslint-plugin-jsx-a11y", "@typescript-eslint/parser",
          "@typescript-eslint/eslint-plugin"]
          "Failed to install ESLint",
        emitE (Event.writeFile ".eslintrc.json" (FileContent.json eslint_config))
      ]
    else pnop),
    (if w.config.prettier then
      stepSeq [
        ProjectWorker.emit_log "Setting up Prettier..." "INFO",
        checkedProc env [w.npm_path, "install", "-D", "prettier"]
          "Failed to install Prettier",
        emitE (Event.writeFile ".prettierrc" (FileContent.json prettier_config))
      ]
    else pnop)
  ]

/-- The `try` body of source `ProjectWorker.setup_features`: TypeScript,
styling (guarded by the truthiness of the `styling_solution` string) and
linting. -/
def ProjectWorker.setup_features_body (w : ProjectWorker) (env : Env) : Step :=
  stepSeq [
    (if w.config.typescript then ProjectWorker.setup_typescript w else pnop),
    (if w.config.styling_solution != "" then ProjectWorker.setup_styling w env else pnop),
    (if w.config.eslint || w.config.prettier then ProjectWorker.setup_linting w env else pnop)
  ]

/-- Source `ProjectWorker.setup_features`: the body above inside a
`try/except` that logs the error and re-raises. -/
def ProjectWorker.setup_features (w : ProjectWorker) (env : Env) : Step :=
  match (ProjectWorker.setup_features_body w env).2 with
  | Except.ok _ => ProjectWorker.setup_features_body w env
  | Except.error e =>
      ((ProjectWorker.setup_features_body w env).1 ++
        [Event.log ("Error setting up features: " ++ e) "ERROR"], Except.error e)

/-- The dev-dependency list of `ProjectWorker.setup_testing`: the vitest set
when `test_framework == "vitest"`, the jest set otherwise. -/
def ProjectWorker.testing_deps (w : ProjectWorker) : List String :=
  if w.config.test_framework == some "vitest" then
    ["vitest", "@testing-library/react", "@testing-library/user-event",
     "@testing-library/jest-dom", "jsdom"]
  else
    ["jest", "@testing-library/react", "@testing-library/user-event",
     "@testing-library/jest-dom", "@types/jest"]

/-- Source `ProjectWorker.setup_testing`: log, install the dev dependencies
(raising on failure), then — only in the `test_framework == "vitest"`
branch — write `src/test/setup.ts` and `src/test/App.test.tsx`. -/
def ProjectWorker.setup_testing (w : ProjectWorker) (env : Env) : Step :=
  stepSeq [
    ProjectWorker.emit_log "Setting up testing configuration..." "INFO",
    checkedProc env ([w.npm_path, "install", "-D"] ++ ProjectWorker.testing_deps w)
      "Failed to install testing dependencies",
    (if w.config.test_framework == some "vitest" then
      stepSeq [
        emitE (Event.makedirs "src/test"),
        emitE (Event.writeFile "src/test/setup.ts" (FileContent.text vitest_setup)),
        emitE (Event.writeFile "src/test/App.test.tsx" (FileContent.text vitest_example_test))
      ]
    else pnop)
  ]

/-- Source `ProjectWorker.setup_router`: install `react-router-dom`, write
the router module and the three page modules (in the dict's insertion
order: Home, About, NotFound). -/
def ProjectWorker.setup_router (w : ProjectWorker) (env : Env) : Step :=
  stepSeq [
    ProjectWorker.emit_log "Setting up React Router..." "INFO",
    checkedProc env [w.npm_path, "install", "react-router-dom"]
      "Failed to install React Router",
    emitE (Event.makedirs "src/router"),
    emitE (Event.writeFile "src/router/index.tsx" (FileContent.text router_config)),
    emitE (Event.makedirs "src/pages"),
    emitE (Event.writeFile "src/pages/Home.tsx" (FileContent.text page_Home)),
    emitE (Event.writeFile "src/pages/About.tsx" (FileContent.text page_About)),
    emitE (Event.writeFile "src/pages/NotFound.tsx" (FileContent.text page_NotFound))
  ]

/-- Source `ProjectWorker.setup_redux_toolkit`. -/
def ProjectWorker.setup_redux_toolkit (w : ProjectWorker) (env : Env) : Step :=
  stepSeq [
    checkedProc env [w.npm_path, "install", "@reduxjs/toolkit", "react-redux"]
      "Failed to install Redux Toolkit",
    emitE (Event.makedirs "src/store"),
    emitE (Event.writeFile "src/store/index.ts" (FileContent.text redux_store_config)),
    emitE (Event.makedirs "src/store/slices"),
    emitE (Event.writeFile "src/store/slices/counterSlice.ts" (FileContent.text redux_counter_slice))
  ]

/-- Source `ProjectWorker.setup_zustand`. -/
def ProjectWorker.setup_zustand (w : ProjectWorker) (env : Env) : Step :=
  stepSeq [
    checkedProc env [w.npm_path, "install", "zustand"] "Failed to install Zustand",
    emitE (Event.makedirs "src/store"),
    emitE (Event.writeFile "src/store/index.ts" (FileContent.text zustand_store))
  ]

/-- Source `ProjectWorker.setup_state_management`: log, then dispatch by
string equality; any unrecognized value falls through with no effect. -/
def ProjectWorker.setup_state_management (w : ProjectWorker) (env : Env) : Step :=
  stepSeq [
    ProjectWorker.emit_log
      ("Setting up " ++ (w.config.state_management.getD "None") ++ "...") "INFO",
    (if w.config.state_management == some "Redux Toolkit" then
      ProjectWorker.setup_redux_toolkit w env
    else if w.config.state_management == some "Zustand" then
      ProjectWorker.setup_zustand w env
    else pnop)
  ]

/-- Source `ProjectWorker.setup_vercel_deployment`: write `vercel.json`. -/
def ProjectWorker.setup_vercel_deployment (_w : ProjectWorker) : Step :=
  emitE (Event.writeFile "vercel.json" (FileContent.text vercel_config_text))

/-- Source `ProjectWorker.setup_ci_cd`: log; the Vercel descriptor is
written first when `deployment_platform == "Vercel"`; then the GitHub
Actions workflow is written unconditionally. -/
def ProjectWorker.setup_ci_cd (w : ProjectWorker) : Step :=
  stepSeq [
    ProjectWorker.emit_log "Setting up CI/CD configuration..." "INFO",
    (if w.config.deployment_platform == some "Vercel" then
      ProjectWorker.setup_vercel_deployment w
    else pnop),
    emitE (Event.makedirs ".github/workflows"),
    emitE (Event.writeFile ".github/workflows/ci.yml" (FileContent.text cicd_workflow))
  ]

/-- Source `ProjectWorker.setup_git`: inside a `try/except` that logs and
re-raises, `git.Repo.init()`, write `.gitignore`, `repo.index.add(["."])`,
`repo.index.commit("Initial commit: Project setup")`, success log.  The
GitPython calls are modelled by the single environment outcome `gitOk`
(failure below stands for `git.Repo.init()` raising `gitErr`). -/
def ProjectWorker.setup_git_body (_w : ProjectWorker) (env : Env) : Step :=
  pseq (ProjectWorker.emit_log "Initializing Git repository..." "INFO")
    (if env.gitOk then
      stepSeq [
        emitE Event.gitInit,
        emitE (Event.writeFile ".gitignore" (FileContent.text gitignore_content)),
        emitE (Event.gitAdd ["."]),
        emitE (Event.gitCommit "Initial commit: Project setup"),
        ProjectWorker.emit_log "Git repository initialized successfully" "SUCCESS"
      ]
    else raiseE env.gitErr)

/-- Source `ProjectWorker.setup_git` (documented on `setup_git_body`): the
body inside a `try/except` that logs and re-raises. -/
def ProjectWorker.setup_git (w : ProjectWorker) (env : Env) : Step :=
  match (ProjectWorker.setup_git_body w env).2 with
  | Except.ok _ => ProjectWorker.setup_git_body w env
  | Except.error e =>
      ((ProjectWorker.setup_git_body w env).1 ++
        [Event.log ("Failed to initialize Git repository: " ++ e) "ERROR"],
       Except.error e)

/-! ## The pipeline itself (`ProjectWorker.run`) -/

/-- Resolved project path `Path(self.project_directory) / self.config.name`. -/
def ProjectWorker.project_path (w : ProjectWorker) : String :=
  w.project_directory ++ "/" ++ w.config.name

/-- The scaffolding command `create_cmd` built by `ProjectWorker.run`: the
`create-next-app` form for the `"next"` template (with empty-string
placeholders for unset flags, exactly as in the source), the
`create-vite@latest` form (with the `-ts` template suffix when `typescript`
is set) otherwise. -/
def ProjectWorker.create_cmd (w : ProjectWorker) : List String :=
  if w.config.template == "next" then
    ["create-next-app", w.config.name,
     (if w.config.typescript then "--typescript" else ""),
     (if w.config.styling_solution == "Tailwind CSS" then "--tailwind" else ""),
     (if w.config.eslint then "--eslint" else ""),
     "--src-dir", "--app"]
  else
    [w.npx_path, "create-vite@latest", w.config.name, "--template",
     w.config.template ++ (if w.config.typescript then "-ts" else "")]

/-- The base dependency install command `install_cmd = [self.npm_path, "install"]`. -/
def ProjectWorker.install_cmd (w : ProjectWorker) : List String :=
  [w.npm_path, "install"]

/-- The statements of the `try` body of `ProjectWorker.run`, in order. -/
def ProjectWorker.runSteps (w : ProjectWorker) (env : Env) : List Step :=
  [
    emitE (Event.progress 0 "Initializing project..."),
    ProjectWorker.emit_log "Starting project creation..." "INFO",
    emitE (Event.chdir w.project_directory),
    emitE (Event.mkdirP (ProjectWorker.project_path w)),
    emitE (Event.progress 20 "Creating project structure..."),
    checkedProc env (ProjectWorker.create_cmd w) "Failed to create project structure",
    emitE (Event.chdir (ProjectWorker.project_path w)),
    emitE (Event.progress 40 "Installing dependencies..."),
    ProjectWorker.emit_log "Installing core dependencies..." "INFO",
    checkedProc env (ProjectWorker.install_cmd w) "Failed to install core dependencies",
    emitE (Event.progress 60 "Setting up project features..."),
    ProjectWorker.setup_features w env,
    (if w.config.testing then ProjectWorker.setup_testing w env else pnop),
    (if w.config.router then ProjectWorker.setup_router w env else pnop),
    (if truthyOpt w.config.state_management then ProjectWorker.setup_state_management w env else pnop),
    (if w.config.ci_cd then ProjectWorker.setup_ci_cd w else pnop),
    (if w.config.git_integration then ProjectWorker.setup_git w env else pnop),
    emitE (Event.progress 100 "Project created successfully!"),
    ProjectWorker.emit_log "Project setup completed successfully!" "SUCCESS",
    emitE (Event.finished true "Project created successfully!")
  ]

/-- The `try` body of `ProjectWorker.run`: the statements above in sequence. -/
def ProjectWorker.runBody (w : ProjectWorker) (env : Env) : Step :=
  stepSeq (ProjectWorker.runSteps w env)

/-- Source `ProjectWorker.run`: the `try` body above, with the `except`
clause appending the error log line and the failure `finished` signal when
an exception escaped. -/
def ProjectWorker.run (w : ProjectWorker) (env : Env) : List Event :=
  match ProjectWorker.runBody w env with
  | (evs, Except.ok _) => evs
  | (evs, Except.error e) =>
      evs ++ [Event.log ("Error: " ++ e) "ERROR", Event.finished false e]

end RPA

namespace RPA

/-! ## The Process Runner (`ProjectWorker.run_process`)

The source launches a `QProcess`, blocks in `waitForFinished()` and returns
`process.exitCode() == 0`.  A launch outcome is either a finished process
with some exit code, or a failure to start the executable.  Per the
documented Qt semantics, `QProcess.exitCode()` reports the exit code of the
last process that finished, and keeps its initial value `0` when no process
ever finished (in particular after a failure to start). -/

/-- Outcome of `process.start(...)` followed by `process.waitForFinished()`. -/
inductive QProcessOutcome where
  | exited (code : Int) : QProcessOutcome
  | failedToStart : QProcessOutcome

/-- Model of `QProcess.exitCode()`: the exit code of the last finished
process, `0` (its initial value) when no process has finished. -/
def QProcessOutcome.exitCode : QProcessOutcome → Int
  | QProcessOutcome.exited code => code
  | QProcessOutcome.failedToStart => 0

/-- Source `ProjectWorker.run_process`: the returned success boolean is the
single expression `process.exitCode() == 0`. -/
def ProjectWorker.run_process (outcome : QProcessOutcome) : Bool :=
  outcome.exitCode == 0

/-! ## The independent git operations (`GitWorker`) -/

/-- State of the repository GitPython exposes at `repo_path`:
`untracked_files` is `repo.untracked_files`, `modified_files` collects the
`a_path` entries of `repo.index.diff(None)`, `staged` is the index content
accumulated by `repo.index.add`, `commits` the list of commit messages in
creation order, `heads` the local branch names and `remote_url` the URL of
the `origin` remote if it exists. -/
structure GRepo where
  untracked_files : List String
  modified_files : List String
  staged : List String
  commits : List String
  heads : List String
  remote_url : Option String

/-- Python's `str.startswith`, written over the character lists so that it
evaluates by kernel reduction. -/
def pyStartsWith (s pre : String) : Bool :=
  List.isPrefixOf pre.data s.data

/-- A repository as `git.Repo.init` creates it at a fresh path. -/
def GRepo.empty : GRepo where
  untracked_files := []
  modified_files := []
  staged := []
  commits := []
  heads := []
  remote_url := none

/-- The world a `GitWorker` operates on: the repository found at
`repo_path` by `git.Repo(...)` (absent when the path holds no repository),
and the text of the `InvalidGitRepositoryError` raised in that case. -/
structure GitWorld where
  repoAt : Option GRepo
  invalidRepoErr : String

/-- Observable events of one `GitWorker` run. -/
inductive GEvent where
  | progress (msg : String) : GEvent
  | repoInit (path : String) : GEvent
  | addFiles (files : List String) : GEvent
  | commit (msg : String) : GEvent
  | setRemoteUrl (url : String) : GEvent
  | createRemote (url : String) : GEvent
  | createHead (branch : String) : GEvent
  | checkout (branch : String) : GEvent
  | push (refspec : String) : GEvent
  | finished (ok : Bool) (msg : String) : GEvent

/-- Constructor arguments of `GitWorker.__init__` plus the cooperative stop
flag `_is_running` (checked once on entry). -/
structure GitWorker where
  repo_path : String
  operation : String
  commit_message : Option String
  remote_url : Option String
  branch : Option String
  is_running : Bool

/-- The commit message the `"commit"` operation uses: the caller-supplied
message, or `"Initial commit: Project setup"` when the supplied message is
falsy (`None` or empty). -/
def GitWorker.message (gw : GitWorker) : String :=
  match gw.commit_message with
  | some m => if m == "" then "Initial commit: Project setup" else m
  | none => "Initial commit: Project setup"

/-- Source `GitWorker.run`, dispatching on the `operation` string.

* `"init"`: `git.Repo.init(repo_path)` (creates a fresh repository when none
  exists, otherwise leaves the existing one), then a success signal.
* `"commit"`: `git.Repo(repo_path)` (raising when the path holds no
  repository, which the `except` clause turns into a failure signal); stage
  the untracked files whose path does not start with `node_modules/`; stage
  the modified tracked files; commit with the caller's message, falling back
  to `"Initial commit: Project setup"` when the message is `None` or empty
  (Python truthiness); then a success signal naming the message.
* `"push"`: add or re-point the `origin` remote, create the branch if
  absent, check it out and push `branch:refs/heads/branch` (the GUI always
  supplies `remote_url` and `branch` for this operation; `None` is modelled
  as the empty string here).
* any other operation string falls through the `if/elif` chain: no event.

The returned pair is the event list and the repository state left at the
path. -/
def GitWorker.run (gw : GitWorker) (world : GitWorld) : List GEvent × Option GRepo :=
  if !gw.is_running then ([], world.repoAt)
  else if gw.operation == "init" then
    ([GEvent.progress "Initializing repository...",
      GEvent.repoInit gw.repo_path,
      GEvent.finished true "Repository initialized successfully"],
     some (world.repoAt.getD GRepo.empty))
  else if gw.operation == "commit" then
    match world.repoAt with
    | none =>
        ([GEvent.progress "Creating commit...",
          GEvent.finished false world.invalidRepoErr], none)
    | some repo =>
        let newUntracked := repo.untracked_files.filter
          (fun item => !(pyStartsWith item "node_modules/"))
        let changed_files := repo.modified_files
        let message := GitWorker.message gw
        ([GEvent.progress "Creating commit...",
          GEvent.addFiles newUntracked,
          GEvent.addFiles changed_files,
          GEvent.commit message,
          GEvent.finished true ("Changes committed successfully with message: " ++ message)],
         some { repo with
                  staged := repo.staged ++ newUntracked ++ changed_files,
                  commits := repo.commits ++ [message] })
  else if gw.operation == "push" then
    match world.repoAt with
    | none =>
        ([GEvent.progress "Pushing to remote...",
          GEvent.finished false world.invalidRepoErr], none)
    | some repo =>
        let url := gw.remote_url.getD ""
        let br := gw.branch.getD ""
        let remoteEv := match repo.remote_url with
          | some _ => GEvent.setRemoteUrl url
          | none => GEvent.createRemote url
        let headEvs := if br ∈ repo.heads then [] else [GEvent.createHead br]
        ([GEvent.progress "Pushing to remote..."] ++ [remoteEv] ++ headEvs ++
         [GEvent.checkout br,
          GEvent.push (br ++ ":refs/heads/" ++ br),
          GEvent.finished true "Changes pushed to remote successfully"],
         some { repo with
                  remote_url := some url,
                  heads := if br ∈ repo.heads then repo.heads else repo.heads ++ [br] })
  else ([], world.repoAt)

end RPA

namespace RPA

/-! ## Trace predicates and sequencing lemmas -/

/-- Whether an event is a process invocation. -/
def Event.isProcCall : Event → Bool
  | Event.procCall _ => true
  | _ => false

/-- Whether an event is a side effect on the filesystem, a process
invocation or a git mutation (as opposed to pure reporting: progress, log
and the terminal signal). -/
def Event.isWorkEvent : Event → Bool
  | Event.procCall _ => true
  | Event.writeFile _ _ => true
  | Event.chdir _ => true
  | Event.mkdirP _ => true
  | Event.makedirs _ => true
  | Event.gitInit => true
  | Event.gitAdd _ => true
  | Event.gitCommit _ => true
  | _ => false

/-- Whether an event belongs to the work of the version-control stage. -/
def Event.isGitWork : Event → Bool
  | Event.gitInit => true
  | Event.gitAdd _ => true
  | Event.gitCommit _ => true
  | Event.writeFile p _ => decide (p = ".gitignore")
  | _ => false

/-- Whether an event is the terminal `finished` signal. -/
def Event.isFinished : Event → Bool
  | Event.finished _ _ => true
  | _ => false

/-- Whether an event writes the file `path`. -/
def writeToP (path : String) : Event → Bool
  | Event.writeFile p _ => decide (p = path)
  | _ => false

/-- Whether an event is a file write. -/
def isWriteEv : Event → Bool
  | Event.writeFile _ _ => true
  | _ => false

/-- Whether an event invokes exactly the command `cmd`. -/
def procCallP (cmd : List String) : Event → Bool
  | Event.procCall c => decide (c = cmd)
  | _ => false

/-- Whether the trace contains a write to `path`. -/
def writesTo (path : String) (evs : List Event) : Bool :=
  evs.any (writeToP path)

/-- Whether the trace contains any file write at all. -/
def anyWrite (evs : List Event) : Bool :=
  evs.any isWriteEv

/-- Whether the trace contains an invocation of exactly the command `cmd`. -/
def callsProc (cmd : List String) (evs : List Event) : Bool :=
  evs.any (procCallP cmd)

/-- Number of terminal `finished` signals in a trace. -/
def finishedCount (evs : List Event) : Nat :=
  (evs.filter Event.isFinished).length

/-- All events of a step satisfy the boolean predicate. -/
def stepAll (pred : Event → Bool) (s : Step) : Prop :=
  s.1.all pred = true

/-- The step completed without a propagating exception. -/
def stepOk (s : Step) : Prop := s.2 = Except.ok ()

/-- An environment in which every external invocation and the git library
succeed. -/
def goodEnv (env : Env) : Prop :=
  (∀ cmd, env.proc cmd = true) ∧ env.gitOk = true

theorem stepAll_pnop {pred : Event → Bool} : stepAll pred pnop := rfl

theorem stepAll_emitE {pred : Event → Bool} {e : Event} (h : pred e = true) :
    stepAll pred (emitE e) := by
  simp [stepAll, emitE, h]

theorem stepAll_raiseE {pred : Event → Bool} {msg : String} :
    stepAll pred (raiseE msg) := rfl

theorem stepAll_checkedProc {pred : Event → Bool} {env : Env} {cmd : List String}
    {msg : String} (h : pred (Event.procCall cmd) = true) :
    stepAll pred (checkedProc env cmd msg) := by
  simp [stepAll, checkedProc, h]

theorem stepAll_pseq {pred : Event → Bool} {a b : Step}
    (ha : stepAll pred a) (hb : stepAll pred b) : stepAll pred (pseq a b) := by
  unfold stepAll pseq at *
  rcases h : a.2 with e | u
  · simpa [h] using ha
  · simp [h, List.all_append, ha, hb]

theorem stepAll_stepSeq {pred : Event → Bool} :
    ∀ {l : List Step}, (∀ s ∈ l, stepAll pred s) → stepAll pred (stepSeq l)
  | [], _ => stepAll_pnop
  | s :: rest, h => by
      rw [stepSeq]
      exact stepAll_pseq (h s (List.mem_cons_self s rest))
        (stepAll_stepSeq fun t ht => h t (List.mem_cons_of_mem s ht))

theorem pseq_fst_of_ok {a b : Step} (h : a.2 = Except.ok ()) :
    (pseq a b).1 = a.1 ++ b.1 := by
  unfold pseq; rw [h]

theorem pseq_fst_of_error {a b : Step} {e : String} (h : a.2 = Except.error e) :
    (pseq a b).1 = a.1 := by
  unfold pseq; rw [h]

theorem pseq_snd_of_ok {a b : Step} (h : a.2 = Except.ok ()) :
    (pseq a b).2 = b.2 := by
  unfold pseq; rw [h]

theorem pseq_snd_of_error {a b : Step} {e : String} (h : a.2 = Except.error e) :
    (pseq a b).2 = Except.error e := by
  unfold pseq; rw [h]

theorem pseq_ok {a b : Step} (ha : stepOk a) (hb : stepOk b) : stepOk (pseq a b) := by
  unfold stepOk at *
  rw [pseq_snd_of_ok ha]; exact hb

theorem stepOk_pnop : stepOk pnop := rfl

theorem stepOk_emitE {e : Event} : stepOk (emitE e) := rfl

theorem stepOk_checkedProc {env : Env} {cmd : List String} {msg : String}
    (h : env.proc cmd = true) : stepOk (checkedProc env cmd msg) := by
  simp [stepOk, checkedProc, h]

theorem stepOk_stepSeq :
    ∀ {l : List Step}, (∀ s ∈ l, stepOk s) → stepOk (stepSeq l)
  | [], _ => stepOk_pnop
  | s :: rest, h => by
      rw [stepSeq]
      exact pseq_ok (h s (List.mem_cons_self s rest))
        (stepOk_stepSeq fun t ht => h t (List.mem_cons_of_mem s ht))

theorem stepSeq_append : ∀ (l₁ l₂ : List Step),
    stepSeq (l₁ ++ l₂) = pseq (stepSeq l₁) (stepSeq l₂)
  | [], l₂ => by
      rw [List.nil_append]
      show stepSeq l₂ = pseq pnop (stepSeq l₂)
      unfold pseq pnop
      simp
  | s :: rest, l₂ => by
      rw [List.cons_append, stepSeq, stepSeq, stepSeq_append rest l₂]
      unfold pseq
      rcases h : s.2 with e | u <;> rcases h2 : (stepSeq rest).2 with e2 | u2 <;>
        simp [h, h2, List.append_assoc]

end RPA

namespace RPA

/-! ## Helper lemmas for conditional steps and membership in run traces -/

theorem stepAll_ite {pred : Event → Bool} {c : Prop} [Decidable c] {a b : Step}
    (ha : stepAll pred a) (hb : stepAll pred b) :
    stepAll pred (if c then a else b) := by
  split <;> assumption

theorem stepOk_ite {c : Prop} [Decidable c] {a b : Step}
    (ha : stepOk a) (hb : stepOk b) : stepOk (if c then a else b) := by
  split <;> assumption

theorem mem_pseq_left {e : Event} {a b : Step} (h : e ∈ a.1) : e ∈ (pseq a b).1 := by
  unfold pseq
  rcases h2 : a.2 with s | u <;> simp [h2, h]

theorem mem_pseq_right {e : Event} {a b : Step} (ha : stepOk a) (h : e ∈ b.1) :
    e ∈ (pseq a b).1 := by
  rw [pseq_fst_of_ok ha]
  exact List.mem_append_right _ h

theorem mem_stepSeq_head {e : Event} {s : Step} {rest : List Step} (h : e ∈ s.1) :
    e ∈ (stepSeq (s :: rest)).1 := by
  rw [stepSeq]; exact mem_pseq_left h

theorem mem_stepSeq_tail {e : Event} {s : Step} {rest : List Step}
    (hs : stepOk s) (h : e ∈ (stepSeq rest).1) : e ∈ (stepSeq (s :: rest)).1 := by
  rw [stepSeq]; exact mem_pseq_right hs h

theorem mem_run_of_mem_runBody {w : ProjectWorker} {env : Env} {e : Event}
    (h : e ∈ (ProjectWorker.runBody w env).1) : e ∈ ProjectWorker.run w env := by
  unfold ProjectWorker.run
  rcases hb : ProjectWorker.runBody w env with ⟨evs, r⟩
  rw [hb] at h
  cases r
  · exact List.mem_append_left _ h
  · exact h

/-- Transfer a `stepAll` fact on the `try` body to the full `run` trace (the
`except` clause only appends a log line and the failure signal). -/
theorem run_all {w : ProjectWorker} {env : Env} {pred : Event → Bool}
    (h : stepAll pred (ProjectWorker.runBody w env))
    (hlog : ∀ m l, pred (Event.log m l) = true)
    (hfin : ∀ b m, pred (Event.finished b m) = true) :
    (ProjectWorker.run w env).all pred = true := by
  unfold ProjectWorker.run
  rcases hb : ProjectWorker.runBody w env with ⟨evs, r⟩
  unfold stepAll at h
  rw [hb] at h
  cases r with
  | ok u => exact h
  | error e => simp [List.all_append, h, hlog, hfin]

/-- Split the `run` trace along a decomposition of the body's event list. -/
theorem run_decompose {w : ProjectWorker} {env : Env} {A B : List Event}
    (h : (ProjectWorker.runBody w env).1 = A ++ B) :
    ∃ rest, ProjectWorker.run w env = A ++ rest := by
  unfold ProjectWorker.run
  rcases hb : ProjectWorker.runBody w env with ⟨evs, r⟩
  rw [hb] at h
  simp only at h
  cases r with
  | ok u => exact ⟨B, h⟩
  | error e =>
      refine ⟨B ++ [Event.log ("Error: " ++ e) "ERROR", Event.finished false e], ?_⟩
      rw [h]
      exact List.append_assoc A B _

end RPA

namespace RPA

/-! ## Per-stage event coverage lemmas

Each lemma lists every event a stage method can emit (over all branches and
environments) and concludes `stepAll pred` for any boolean predicate that
holds on those events.  Log and directory-creation events are covered by the
uniform hypotheses `hlog` and `hmk`. -/

theorem stepAll_setup_typescript {pred : Event → Bool} {w : ProjectWorker}
    (hlog : ∀ m l, pred (Event.log m l) = true)
    (hw : pred (Event.writeFile "tsconfig.json" (FileContent.json ts_config)) = true) :
    stepAll pred (ProjectWorker.setup_typescript w) := by
  unfold ProjectWorker.setup_typescript
  refine stepAll_stepSeq ?_
  intro s hs
  simp only [List.mem_cons, List.not_mem_nil, or_false] at hs
  rcases hs with rfl | rfl
  · exact stepAll_emitE (hlog _ _)
  · exact stepAll_emitE hw

theorem stepAll_setup_tailwind {pred : Event → Bool} {w : ProjectWorker} {env : Env}
    (hc1 : pred (Event.procCall
      [w.npm_path, "install", "-D", "tailwindcss", "postcss", "autoprefixer"]) = true)
    (hc2 : pred (Event.procCall [w.npx_path, "tailwindcss", "init", "-p"]) = true)
    (hw1 : pred (Event.writeFile "tailwind.config.js"
      (FileContent.jsModuleExports tailwind_config)) = true)
    (hw2 : pred (Event.writeFile "src/index.css"
      (FileContent.text tailwind_css_content)) = true) :
    stepAll pred (ProjectWorker.setup_tailwind w env) := by
  unfold ProjectWorker.setup_tailwind
  refine stepAll_stepSeq ?_
  intro s hs
  simp only [List.mem_cons, List.not_mem_nil, or_false] at hs
  rcases hs with rfl | rfl | rfl | rfl
  · exact stepAll_checkedProc hc1
  · exact stepAll_checkedProc hc2
  · exact stepAll_emitE hw1
  · exact stepAll_emitE hw2

theorem stepAll_setup_styled_components {pred : Event → Bool} {w : ProjectWorker} {env : Env}
    (hmk : ∀ p, pred (Event.makedirs p) = true)
    (hc3 : pred (Event.procCall [w.npm_path, "install", "styled-components"]) = true)
    (hc4 : pred (Event.procCall [w.npm_path, "install", "styled-components",
      "@types/styled-components"]) = true)
    (hw : pred (Event.writeFile "src/styles/theme.ts"
      (FileContent.text styled_components_theme)) = true) :
    stepAll pred (ProjectWorker.setup_styled_components w env) := by
  unfold ProjectWorker.setup_styled_components
  refine stepAll_stepSeq ?_
  intro s hs
  simp only [List.mem_cons, List.not_mem_nil, or_false] at hs
  rcases hs with rfl | rfl | rfl
  · cases hts : w.config.typescript
    · exact stepAll_checkedProc (by simpa using hc3)
    · exact stepAll_checkedProc (by simpa using hc4)
  · exact stepAll_emitE (hmk _)
  · exact stepAll_emitE hw

theorem stepAll_setup_css_modules {pred : Event → Bool} {w : ProjectWorker}
    (hmk : ∀ p, pred (Event.makedirs p) = true)
    (hw : pred (Event.writeFile "src/styles/Example.module.css"
      (FileContent.text css_modules_example)) = true) :
    stepAll pred (ProjectWorker.setup_css_modules w) := by
  unfold ProjectWorker.setup_css_modules
  refine stepAll_stepSeq ?_
  intro s hs
  simp only [List.mem_cons, List.not_mem_nil, or_false] at hs
  rcases hs with rfl | rfl
  · exact stepAll_emitE (hmk _)
  · exact stepAll_emitE hw

theorem stepAll_setup_styling {pred : Event → Bool} {w : ProjectWorker} {env : Env}
    (hlog : ∀ m l, pred (Event.log m l) = true)
    (hmk : ∀ p, pred (Event.makedirs p) = true)
    (hc1 : pred (Event.procCall
      [w.npm_path, "install", "-D", "tailwindcss", "postcss", "autoprefixer"]) = true)
    (hc2 : pred (Event.procCall [w.npx_path, "tailwindcss", "init", "-p"]) = true)
    (hw1 : pred (Event.writeFile "tailwind.config.js"
      (FileContent.jsModuleExports tailwind_config)) = true)
    (hw2 : pred (Event.writeFile "src/index.css"
      (FileContent.text tailwind_css_content)) = true)
    (hc3 : pred (Event.procCall [w.npm_path, "install", "styled-components"]) = true)
    (hc4 : pred (Event.procCall [w.npm_path, "install", "styled-components",
      "@types/styled-components"]) = true)
    (hw3 : pred (Event.writeFile "src/styles/theme.ts"
      (FileContent.text styled_components_theme)) = true)
    (hw4 : pred (Event.writeFile "src/styles/Example.module.css"
      (FileContent.text css_modules_example)) = true) :
    stepAll pred (ProjectWorker.setup_styling w env) := by
  unfold ProjectWorker.setup_styling
  refine stepAll_stepSeq ?_
  intro s hs
  simp only [List.mem_cons, List.not_mem_nil, or_false] at hs
  rcases hs with rfl | rfl
  · exact stepAll_emitE (hlog _ _)
  · refine stepAll_ite (stepAll_setup_tailwind hc1 hc2 hw1 hw2) ?_
    refine stepAll_ite (stepAll_setup_styled_components hmk hc3 hc4 hw3) ?_
    exact stepAll_ite (stepAll_setup_css_modules hmk hw4) stepAll_pnop

theorem stepAll_setup_linting {pred : Event → Bool} {w : ProjectWorker} {env : Env}
    (hlog : ∀ m l, pred (Event.log m l) = true)
    (hc1 : pred (Event.procCall [w.npm_path, "install", "-D",
      "eslint", "eslint-plugin-react", "eslint-plugin-react-hooks",
      "eslint-plugin-jsx-a11y", "@typescript-eslint/parser",
      "@typescript-eslint/eslint-plugin"]) = true)
    (hw1 : pred (Event.writeFile ".eslintrc.json" (FileContent.json eslint_config)) = true)
    (hc2 : pred (Event.procCall [w.npm_path, "install", "-D", "prettier"]) = true)
    (hw2 : pred (Event.writeFile ".prettierrc" (FileContent.json prettier_config)) = true) :
    stepAll pred (ProjectWorker.setup_linting w env) := by
  unfold ProjectWorker.setup_linting
  refine stepAll_stepSeq ?_
  intro s hs
  simp only [List.mem_cons, List.not_mem_nil, or_false] at hs
  rcases hs with rfl | rfl
  · refine stepAll_ite ?_ stepAll_pnop
    refine stepAll_stepSeq ?_
    intro t ht
    simp only [List.mem_cons, List.not_mem_nil, or_false] at ht
    rcases ht with rfl | rfl | rfl
    · exact stepAll_emitE (hlog _ _)
    · exact stepAll_checkedProc hc1
    · exact stepAll_emitE hw1
  · refine stepAll_ite ?_ stepAll_pnop
    refine stepAll_stepSeq ?_
    intro t ht
    simp only [List.mem_cons, List.not_mem_nil, or_false] at ht
    rcases ht with rfl | rfl | rfl
    · exact stepAll_emitE (hlog _ _)
    · exact stepAll_checkedProc hc2
    · exact stepAll_emitE hw2

theorem stepAll_setup_features_body {pred : Event → Bool} {w : ProjectWorker} {env : Env}
    (hts : stepAll pred (if w.config.typescript then ProjectWorker.setup_typescript w else pnop))
    (hsty : stepAll pred
      (if w.config.styling_solution != "" then ProjectWorker.setup_styling w env else pnop))
    (hlint : stepAll pred
      (if w.config.eslint || w.config.prettier then ProjectWorker.setup_linting w env else pnop)) :
    stepAll pred (ProjectWorker.setup_features_body w env) := by
  unfold ProjectWorker.setup_features_body
  refine stepAll_stepSeq ?_
  intro s hs
  simp only [List.mem_cons, List.not_mem_nil, or_false] at hs
  rcases hs with rfl | rfl | rfl <;> assumption

theorem stepAll_setup_features {pred : Event → Bool} {w : ProjectWorker} {env : Env}
    (hlog : ∀ m l, pred (Event.log m l) = true)
    (hbody : stepAll pred (ProjectWorker.setup_features_body w env)) :
    stepAll pred (ProjectWorker.setup_features w env) := by
  unfold ProjectWorker.setup_features
  rcases hb : (ProjectWorker.setup_features_body w env).2 with e | u
  · unfold stepAll at *
    simp [List.all_append, hbody, hlog]
  · exact hbody

theorem stepAll_setup_testing {pred : Event → Bool} {w : ProjectWorker} {env : Env}
    (hlog : ∀ m l, pred (Event.log m l) = true)
    (hmk : ∀ p, pred (Event.makedirs p) = true)
    (hcv : pred (Event.procCall [w.npm_path, "install", "-D", "vitest",
      "@testing-library/react", "@testing-library/user-event",
      "@testing-library/jest-dom", "jsdom"]) = true)
    (hcj : pred (Event.procCall [w.npm_path, "install", "-D", "jest",
      "@testing-library/react", "@testing-library/user-event",
      "@testing-library/jest-dom", "@types/jest"]) = true)
    (hw1 : pred (Event.writeFile "src/test/setup.ts" (FileContent.text vitest_setup)) = true)
    (hw2 : pred (Event.writeFile "src/test/App.test.tsx"
      (FileContent.text vitest_example_test)) = true) :
    stepAll pred (ProjectWorker.setup_testing w env) := by
  unfold ProjectWorker.setup_testing
  refine stepAll_stepSeq ?_
  intro s hs
  simp only [List.mem_cons, List.not_mem_nil, or_false] at hs
  rcases hs with rfl | rfl | rfl
  · exact stepAll_emitE (hlog _ _)
  · unfold ProjectWorker.testing_deps
    rcases htf : (w.config.test_framework == some "vitest") with _ | _
    · exact stepAll_checkedProc (by simpa using hcj)
    · exact stepAll_checkedProc (by simpa using hcv)
  · refine stepAll_ite ?_ stepAll_pnop
    refine stepAll_stepSeq ?_
    intro t ht
    simp only [List.mem_cons, List.not_mem_nil, or_false] at ht
    rcases ht with rfl | rfl | rfl
    · exact stepAll_emitE (hmk _)
    · exact stepAll_emitE hw1
    · exact stepAll_emitE hw2

theorem stepAll_setup_router {pred : Event → Bool} {w : ProjectWorker} {env : Env}
    (hlog : ∀ m l, pred (Event.log m l) = true)
    (hmk : ∀ p, pred (Event.makedirs p) = true)
    (hc : pred (Event.procCall [w.npm_path, "install", "react-router-dom"]) = true)
    (hw1 : pred (Event.writeFile "src/router/index.tsx" (FileContent.text router_config)) = true)
    (hw2 : pred (Event.writeFile "src/pages/Home.tsx" (FileContent.text page_Home)) = true)
    (hw3 : pred (Event.writeFile "src/pages/About.tsx" (FileContent.text page_About)) = true)
    (hw4 : pred (Event.writeFile "src/pages/NotFound.tsx"
      (FileContent.text page_NotFound)) = true) :
    stepAll pred (ProjectWorker.setup_router w env) := by
  unfold ProjectWorker.setup_router
  refine stepAll_stepSeq ?_
  intro s hs
  simp only [List.mem_cons, List.not_mem_nil, or_false] at hs
  rcases hs with rfl | rfl | rfl | rfl | rfl | rfl | rfl | rfl
  · exact stepAll_emitE (hlog _ _)
  · exact stepAll_checkedProc hc
  · exact stepAll_emitE (hmk _)
  · exact stepAll_emitE hw1
  · exact stepAll_emitE (hmk _)
  · exact stepAll_emitE hw2
  · exact stepAll_emitE hw3
  · exact stepAll_emitE hw4

theorem stepAll_setup_redux_toolkit {pred : Event → Bool} {w : ProjectWorker} {env : Env}
    (hmk : ∀ p, pred (Event.makedirs p) = true)
    (hc : pred (Event.procCall
      [w.npm_path, "install", "@reduxjs/toolkit", "react-redux"]) = true)
    (hw1 : pred (Event.writeFile "src/store/index.ts"
      (FileContent.text redux_store_config)) = true)
    (hw2 : pred (Event.writeFile "src/store/slices/counterSlice.ts"
      (FileContent.text redux_counter_slice)) = true) :
    stepAll pred (ProjectWorker.setup_redux_toolkit w env) := by
  unfold ProjectWorker.setup_redux_toolkit
  refine stepAll_stepSeq ?_
  intro s hs
  simp only [List.mem_cons, List.not_mem_nil, or_false] at hs
  rcases hs with rfl | rfl | rfl | rfl | rfl
  · exact stepAll_checkedProc hc
  · exact stepAll_emitE (hmk _)
  · exact stepAll_emitE hw1
  · exact stepAll_emitE (hmk _)
  · exact stepAll_emitE hw2

theorem stepAll_setup_zustand {pred : Event → Bool} {w : ProjectWorker} {env : Env}
    (hmk : ∀ p, pred (Event.makedirs p) = true)
    (hc : pred (Event.procCall [w.npm_path, "install", "zustand"]) = true)
    (hw : pred (Event.writeFile "src/store/index.ts" (FileContent.text zustand_store)) = true) :
    stepAll pred (ProjectWorker.setup_zustand w env) := by
  unfold ProjectWorker.setup_zustand
  refine stepAll_stepSeq ?_
  intro s hs
  simp only [List.mem_cons, List.not_mem_nil, or_false] at hs
  rcases hs with rfl | rfl | rfl
  · exact stepAll_checkedProc hc
  · exact stepAll_emitE (hmk _)
  · exact stepAll_emitE hw

theorem stepAll_setup_state_management {pred : Event → Bool} {w : ProjectWorker} {env : Env}
    (hlog : ∀ m l, pred (Event.log m l) = true)
    (hmk : ∀ p, pred (Event.makedirs p) = true)
    (hc1 : pred (Event.procCall
      [w.npm_path, "install", "@reduxjs/toolkit", "react-redux"]) = true)
    (hc2 : pred (Event.procCall [w.npm_path, "install", "zustand"]) = true)
    (hw1 : pred (Event.writeFile "src/store/index.ts"
      (FileContent.text redux_store_config)) = true)
    (hw2 : pred (Event.writeFile "src/store/slices/counterSlice.ts"
      (FileContent.text redux_counter_slice)) = true)
    (hw3 : pred (Event.writeFile "src/store/index.ts" (FileContent.text zustand_store)) = true) :
    stepAll pred (ProjectWorker.setup_state_management w env) := by
  unfold ProjectWorker.setup_state_management
  refine stepAll_stepSeq ?_
  intro s hs
  simp only [List.mem_cons, List.not_mem_nil, or_false] at hs
  rcases hs with rfl | rfl
  · exact stepAll_emitE (hlog _ _)
  · refine stepAll_ite (stepAll_setup_redux_toolkit hmk hc1 hw1 hw2) ?_
    exact stepAll_ite (stepAll_setup_zustand hmk hc2 hw3) stepAll_pnop

theorem stepAll_setup_ci_cd {pred : Event → Bool} {w : ProjectWorker}
    (hlog : ∀ m l, pred (Event.log m l) = true)
    (hmk : ∀ p, pred (Event.makedirs p) = true)
    (hwv : pred (Event.writeFile "vercel.json" (FileContent.text vercel_config_text)) = true)
    (hwc : pred (Event.writeFile ".github/workflows/ci.yml"
      (FileContent.text cicd_workflow)) = true) :
    stepAll pred (ProjectWorker.setup_ci_cd w) := by
  unfold ProjectWorker.setup_ci_cd
  refine stepAll_stepSeq ?_
  intro s hs
  simp only [List.mem_cons, List.not_mem_nil, or_false] at hs
  rcases hs with rfl | rfl | rfl | rfl
  · exact stepAll_emitE (hlog _ _)
  · exact stepAll_ite (stepAll_emitE hwv) stepAll_pnop
  · exact stepAll_emitE (hmk _)
  · exact stepAll_emitE hwc

theorem stepAll_setup_git {pred : Event → Bool} {w : ProjectWorker} {env : Env}
    (hlog : ∀ m l, pred (Event.log m l) = true)
    (hgi : pred Event.gitInit = true)
    (hga : pred (Event.gitAdd ["."]) = true)
    (hgc : pred (Event.gitCommit "Initial commit: Project setup") = true)
    (hw : pred (Event.writeFile ".gitignore" (FileContent.text gitignore_content)) = true) :
    stepAll pred (ProjectWorker.setup_git w env) := by
  have hbody : stepAll pred (ProjectWorker.setup_git_body w env) := by
    unfold ProjectWorker.setup_git_body
    refine stepAll_pseq (stepAll_emitE (hlog _ _)) ?_
    refine stepAll_ite ?_ stepAll_raiseE
    refine stepAll_stepSeq ?_
    intro s hs
    simp only [List.mem_cons, List.not_mem_nil, or_false] at hs
    rcases hs with rfl | rfl | rfl | rfl | rfl
    · exact stepAll_emitE hgi
    · exact stepAll_emitE hw
    · exact stepAll_emitE hga
    · exact stepAll_emitE hgc
    · exact stepAll_emitE (hlog _ _)
  unfold ProjectWorker.setup_git
  rcases hb : (ProjectWorker.setup_git_body w env).2 with e | u
  · unfold stepAll at *
    simp [List.all_append, hbody, hlog]
  · exact hbody

/-- Master coverage lemma for the whole `try` body of `ProjectWorker.run`:
`stepAll pred` follows from `pred` holding on the fixed reporting events,
the two leading commands, and each conditional stage step. -/
theorem stepAll_runBody {pred : Event → Bool} {w : ProjectWorker} {env : Env}
    (hprog : ∀ n m, pred (Event.progress n m) = true)
    (hlog : ∀ m l, pred (Event.log m l) = true)
    (hchdir : ∀ p, pred (Event.chdir p) = true)
    (hmkdirP : ∀ p, pred (Event.mkdirP p) = true)
    (hfin : ∀ b m, pred (Event.finished b m) = true)
    (hcreate : pred (Event.procCall (ProjectWorker.create_cmd w)) = true)
    (hinstall : pred (Event.procCall (ProjectWorker.install_cmd w)) = true)
    (hfeat : stepAll pred (ProjectWorker.setup_features w env))
    (htest : stepAll pred
      (if w.config.testing then ProjectWorker.setup_testing w env else pnop))
    (hrout : stepAll pred
      (if w.config.router then ProjectWorker.setup_router w env else pnop))
    (hstate : stepAll pred
      (if truthyOpt w.config.state_management
        then ProjectWorker.setup_state_management w env else pnop))
    (hci : stepAll pred (if w.config.ci_cd then ProjectWorker.setup_ci_cd w else pnop))
    (hgit : stepAll pred
      (if w.config.git_integration then ProjectWorker.setup_git w env else pnop)) :
    stepAll pred (ProjectWorker.runBody w env) := by
  unfold ProjectWorker.runBody ProjectWorker.runSteps
  refine stepAll_stepSeq ?_
  intro s hs
  simp only [List.mem_cons, List.not_mem_nil, or_false] at hs
  rcases hs with rfl | rfl | rfl | rfl | rfl | rfl | rfl | rfl | rfl | rfl | rfl |
    rfl | rfl | rfl | rfl | rfl | rfl | rfl | rfl | rfl
  · exact stepAll_emitE (hprog _ _)
  · exact stepAll_emitE (hlog _ _)
  · exact stepAll_emitE (hchdir _)
  · exact stepAll_emitE (hmkdirP _)
  · exact stepAll_emitE (hprog _ _)
  · exact stepAll_checkedProc hcreate
  · exact stepAll_emitE (hchdir _)
  · exact stepAll_emitE (hprog _ _)
  · exact stepAll_emitE (hlog _ _)
  · exact stepAll_checkedProc hinstall
  · exact stepAll_emitE (hprog _ _)
  · exact hfeat
  · exact htest
  · exact hrout
  · exact hstate
  · exact hci
  · exact hgit
  · exact stepAll_emitE (hprog _ _)
  · exact stepAll_emitE (hlog _ _)
  · exact stepAll_emitE (hfin _ _)

end RPA

namespace RPA

/-! ## Success lemmas: no stage raises when every external call succeeds -/

theorem stepOk_setup_typescript {w : ProjectWorker} :
    stepOk (ProjectWorker.setup_typescript w) := rfl

theorem stepOk_setup_tailwind {w : ProjectWorker} {env : Env}
    (hproc : ∀ cmd, env.proc cmd = true) :
    stepOk (ProjectWorker.setup_tailwind w env) := by
  unfold ProjectWorker.setup_tailwind
  refine stepOk_stepSeq ?_
  intro s hs
  simp only [List.mem_cons, List.not_mem_nil, or_false] at hs
  rcases hs with rfl | rfl | rfl | rfl
  · exact stepOk_checkedProc (hproc _)
  · exact stepOk_checkedProc (hproc _)
  · exact stepOk_emitE
  · exact stepOk_emitE

theorem stepOk_setup_styled_components {w : ProjectWorker} {env : Env}
    (hproc : ∀ cmd, env.proc cmd = true) :
    stepOk (ProjectWorker.setup_styled_components w env) := by
  unfold ProjectWorker.setup_styled_components
  refine stepOk_stepSeq ?_
  intro s hs
  simp only [List.mem_cons, List.not_mem_nil, or_false] at hs
  rcases hs with rfl | rfl | rfl
  · exact stepOk_checkedProc (hproc _)
  · exact stepOk_emitE
  · exact stepOk_emitE

theorem stepOk_setup_css_modules {w : ProjectWorker} :
    stepOk (ProjectWorker.setup_css_modules w) := rfl

theorem stepOk_setup_styling {w : ProjectWorker} {env : Env}
    (hproc : ∀ cmd, env.proc cmd = true) :
    stepOk (ProjectWorker.setup_styling w env) := by
  unfold ProjectWorker.setup_styling
  refine stepOk_stepSeq ?_
  intro s hs
  simp only [List.mem_cons, List.not_mem_nil, or_false] at hs
  rcases hs with rfl | rfl
  · exact stepOk_emitE
  · refine stepOk_ite (stepOk_setup_tailwind hproc) ?_
    refine stepOk_ite (stepOk_setup_styled_components hproc) ?_
    exact stepOk_ite stepOk_setup_css_modules stepOk_pnop

theorem stepOk_setup_linting {w : ProjectWorker} {env : Env}
    (hproc : ∀ cmd, env.proc cmd = true) :
    stepOk (ProjectWorker.setup_linting w env) := by
  unfold ProjectWorker.setup_linting
  refine stepOk_stepSeq ?_
  intro s hs
  simp only [List.mem_cons, List.not_mem_nil, or_false] at hs
  rcases hs with rfl | rfl <;>
    · refine stepOk_ite ?_ stepOk_pnop
      refine stepOk_stepSeq ?_
      intro t ht
      simp only [List.mem_cons, List.not_mem_nil, or_false] at ht
      rcases ht with rfl | rfl | rfl
      · exact stepOk_emitE
      · exact stepOk_checkedProc (hproc _)
      · exact stepOk_emitE

theorem stepOk_setup_features_body {w : ProjectWorker} {env : Env}
    (hproc : ∀ cmd, env.proc cmd = true) :
    stepOk (ProjectWorker.setup_features_body w env) := by
  unfold ProjectWorker.setup_features_body
  refine stepOk_stepSeq ?_
  intro s hs
  simp only [List.mem_cons, List.not_mem_nil, or_false] at hs
  rcases hs with rfl | rfl | rfl
  · exact stepOk_ite stepOk_setup_typescript stepOk_pnop
  · exact stepOk_ite (stepOk_setup_styling hproc) stepOk_pnop
  · exact stepOk_ite (stepOk_setup_linting hproc) stepOk_pnop

theorem setup_features_eq_body {w : ProjectWorker} {env : Env}
    (h : stepOk (ProjectWorker.setup_features_body w env)) :
    ProjectWorker.setup_features w env = ProjectWorker.setup_features_body w env := by
  unfold ProjectWorker.setup_features
  unfold stepOk at h
  rw [h]

theorem stepOk_setup_features {w : ProjectWorker} {env : Env}
    (hproc : ∀ cmd, env.proc cmd = true) :
    stepOk (ProjectWorker.setup_features w env) := by
  rw [setup_features_eq_body (stepOk_setup_features_body hproc)]
  exact stepOk_setup_features_body hproc

theorem stepOk_setup_testing {w : ProjectWorker} {env : Env}
    (hproc : ∀ cmd, env.proc cmd = true) :
    stepOk (ProjectWorker.setup_testing w env) := by
  unfold ProjectWorker.setup_testing
  refine stepOk_stepSeq ?_
  intro s hs
  simp only [List.mem_cons, List.not_mem_nil, or_false] at hs
  rcases hs with rfl | rfl | rfl
  · exact stepOk_emitE
  · exact stepOk_checkedProc (hproc _)
  · refine stepOk_ite ?_ stepOk_pnop
    exact rfl

theorem stepOk_setup_router {w : ProjectWorker} {env : Env}
    (hproc : ∀ cmd, env.proc cmd = true) :
    stepOk (ProjectWorker.setup_router w env) := by
  unfold ProjectWorker.setup_router
  refine stepOk_stepSeq ?_
  intro s hs
  simp only [List.mem_cons, List.not_mem_nil, or_false] at hs
  rcases hs with rfl | rfl | rfl | rfl | rfl | rfl | rfl | rfl
  · exact stepOk_emitE
  · exact stepOk_checkedProc (hproc _)
  all_goals exact stepOk_emitE

theorem stepOk_setup_state_management {w : ProjectWorker} {env : Env}
    (hproc : ∀ cmd, env.proc cmd = true) :
    stepOk (ProjectWorker.setup_state_management w env) := by
  unfold ProjectWorker.setup_state_management
  refine stepOk_stepSeq ?_
  intro s hs
  simp only [List.mem_cons, List.not_mem_nil, or_false] at hs
  rcases hs with rfl | rfl
  · exact stepOk_emitE
  · refine stepOk_ite ?_ (stepOk_ite ?_ stepOk_pnop)
    · unfold ProjectWorker.setup_redux_toolkit
      refine stepOk_stepSeq ?_
      intro t ht
      simp only [List.mem_cons, List.not_mem_nil, or_false] at ht
      rcases ht with rfl | rfl | rfl | rfl | rfl
      · exact stepOk_checkedProc (hproc _)
      all_goals exact stepOk_emitE
    · unfold ProjectWorker.setup_zustand
      refine stepOk_stepSeq ?_
      intro t ht
      simp only [List.mem_cons, List.not_mem_nil, or_false] at ht
      rcases ht with rfl | rfl | rfl
      · exact stepOk_checkedProc (hproc _)
      all_goals exact stepOk_emitE

theorem stepOk_setup_ci_cd {w : ProjectWorker} :
    stepOk (ProjectWorker.setup_ci_cd w) := by
  unfold ProjectWorker.setup_ci_cd
  refine stepOk_stepSeq ?_
  intro s hs
  simp only [List.mem_cons, List.not_mem_nil, or_false] at hs
  rcases hs with rfl | rfl | rfl | rfl
  · exact stepOk_emitE
  · exact stepOk_ite stepOk_emitE stepOk_pnop
  · exact stepOk_emitE
  · exact stepOk_emitE

theorem stepOk_setup_git_body {w : ProjectWorker} {env : Env}
    (hgit : env.gitOk = true) :
    stepOk (ProjectWorker.setup_git_body w env) := by
  unfold ProjectWorker.setup_git_body
  refine pseq_ok stepOk_emitE ?_
  rw [hgit]
  exact stepOk_stepSeq (by
    intro s hs
    simp only [List.mem_cons, List.not_mem_nil, or_false] at hs
    rcases hs with rfl | rfl | rfl | rfl | rfl <;> exact stepOk_emitE)

theorem setup_git_eq_body {w : ProjectWorker} {env : Env}
    (h : stepOk (ProjectWorker.setup_git_body w env)) :
    ProjectWorker.setup_git w env = ProjectWorker.setup_git_body w env := by
  unfold ProjectWorker.setup_git
  unfold stepOk at h
  rw [h]

theorem stepOk_setup_git {w : ProjectWorker} {env : Env}
    (hgit : env.gitOk = true) :
    stepOk (ProjectWorker.setup_git w env) := by
  rw [setup_git_eq_body (stepOk_setup_git_body hgit)]
  exact stepOk_setup_git_body hgit

/-- The whole `try` body of `ProjectWorker.run` completes without an
exception when every external invocation and the git library succeed. -/
theorem runBody_ok {w : ProjectWorker} {env : Env}
    (hproc : ∀ cmd, env.proc cmd = true) (hgit : env.gitOk = true) :
    stepOk (ProjectWorker.runBody w env) := by
  unfold ProjectWorker.runBody ProjectWorker.runSteps
  refine stepOk_stepSeq ?_
  intro s hs
  simp only [List.mem_cons, List.not_mem_nil, or_false] at hs
  rcases hs with rfl | rfl | rfl | rfl | rfl | rfl | rfl | rfl | rfl | rfl | rfl |
    rfl | rfl | rfl | rfl | rfl | rfl | rfl | rfl | rfl
  · exact stepOk_emitE
  · exact stepOk_emitE
  · exact stepOk_emitE
  · exact stepOk_emitE
  · exact stepOk_emitE
  · exact stepOk_checkedProc (hproc _)
  · exact stepOk_emitE
  · exact stepOk_emitE
  · exact stepOk_emitE
  · exact stepOk_checkedProc (hproc _)
  · exact stepOk_emitE
  · exact stepOk_setup_features hproc
  · exact stepOk_ite (stepOk_setup_testing hproc) stepOk_pnop
  · exact stepOk_ite (stepOk_setup_router hproc) stepOk_pnop
  · exact stepOk_ite (stepOk_setup_state_management hproc) stepOk_pnop
  · exact stepOk_ite stepOk_setup_ci_cd stepOk_pnop
  · exact stepOk_ite (stepOk_setup_git hgit) stepOk_pnop
  · exact stepOk_emitE
  · exact stepOk_emitE
  · exact stepOk_emitE

/-- On a body that raised no exception, `run` returns exactly the body's
events. -/
theorem run_eq_of_ok {w : ProjectWorker} {env : Env}
    (h : stepOk (ProjectWorker.runBody w env)) :
    ProjectWorker.run w env = (ProjectWorker.runBody w env).1 := by
  unfold ProjectWorker.run
  rcases hb : ProjectWorker.runBody w env with ⟨evs, r⟩
  unfold stepOk at h
  rw [hb] at h
  simp only at h
  subst h
  rfl

end RPA

namespace RPA

theorem stepOk_pseq_elim {a b : Step} (h : stepOk (pseq a b)) : stepOk a ∧ stepOk b := by
  unfold stepOk pseq at *
  rcases ha : a.2 with e | u
  · rw [ha] at h
    exact absurd h (by simp)
  · rw [ha] at h
    cases u
    exact ⟨rfl, h⟩

/-- A fully successful run's last event is the success signal. -/
theorem run_last_of_ok {w : ProjectWorker} {env : Env}
    (hproc : ∀ cmd, env.proc cmd = true) (hgit : env.gitOk = true) :
    (ProjectWorker.run w env).getLast? =
      some (Event.finished true "Project created successfully!") := by
  have hok := @runBody_ok w env hproc hgit
  have hsplit : ProjectWorker.runBody w env =
      pseq (stepSeq ((ProjectWorker.runSteps w env).take 19))
        (stepSeq ((ProjectWorker.runSteps w env).drop 19)) := by
    rw [ProjectWorker.runBody, ← stepSeq_append, List.take_append_drop]
  rw [run_eq_of_ok hok, hsplit]
  rw [hsplit] at hok
  have h19 : stepOk (stepSeq ((ProjectWorker.runSteps w env).take 19)) :=
    (stepOk_pseq_elim hok).1
  rw [pseq_fst_of_ok h19]
  have hdrop : (ProjectWorker.runSteps w env).drop 19 =
      [emitE (Event.finished true "Project created successfully!")] := rfl
  rw [hdrop]
  show (_ ++ [Event.finished true "Project created successfully!"]).getLast? = _
  rw [List.getLast?_concat]

end RPA

namespace RPA

/-! ## Concrete fixtures used by witnesses and counterexamples -/

/-- A worker over the default configuration, with the package-manager and
scaffolder executables resolved to their plain names. -/
def sampleWorker : ProjectWorker where
  config := ProjectConfig.create_default
  npm_path := "npm"
  npx_path := "npx"
  project_directory := "/projects"

/-- An environment in which every external invocation and the git library
succeed. -/
def envAllOk : Env where
  proc := fun _ => true
  gitOk := true
  gitErr := "git error"

theorem envAllOk_good : goodEnv envAllOk := ⟨fun _ => rfl, rfl⟩

/-- An environment in which exactly the base `npm install` invocation
fails. -/
def envInstallFail : Env where
  proc := fun cmd => !(cmd == ["npm", "install"])
  gitOk := true
  gitErr := "git error"

/-! ## C3 — the Process Runner's success boolean -/

/-- C3, counterexample: the claim states that a failure to launch the
executable is reported as `success = false`; but `run_process` returns
`process.exitCode() == 0`, and `QProcess.exitCode()` still holds its initial
value `0` when the process never started, so a failure to launch is
reported as `success = true`. -/
theorem C3_failed_launch_reports_success :
    ProjectWorker.run_process QProcessOutcome.failedToStart = true := rfl

/-- C3, amended: for a process that actually launched and exited, the
returned success boolean is true exactly when the exit code is zero; a
failure to launch, however, leaves the recorded exit code at its initial
value `0` and is therefore reported as `success = true`, not `false`. -/
theorem C3_success_iff_exit_zero :
    (∀ code : Int,
      (ProjectWorker.run_process (QProcessOutcome.exited code) = true ↔ code = 0)) ∧
    ProjectWorker.run_process QProcessOutcome.failedToStart = true := by
  refine ⟨fun code => ?_, rfl⟩
  simp [ProjectWorker.run_process, QProcessOutcome.exitCode]

/-- C3, witness: the amended theorem applied at exit code `0`. -/
theorem C3_witness : ProjectWorker.run_process (QProcessOutcome.exited 0) = true :=
  (C3_success_iff_exit_zero.1 0).mpr rfl

/-! ## C9 — the independent git commit operation -/

/-- C9: the `"commit"` operation on a path holding a repository stages every
untracked file except those under `node_modules/` plus every modified
tracked file, and appends exactly one commit whose message is the
caller-supplied message verbatim (or the fixed default when the supplied
message is absent or empty); on a path with no repository it emits a
failure signal and creates no commit. -/
theorem C9_commit_operation :
    (∀ (gw : GitWorker) (world : GitWorld) (repo : GRepo),
      gw.operation = "commit" → gw.is_running = true → world.repoAt = some repo →
      GitWorker.run gw world =
        ([GEvent.progress "Creating commit...",
          GEvent.addFiles (repo.untracked_files.filter
            (fun item => !(pyStartsWith item "node_modules/"))),
          GEvent.addFiles repo.modified_files,
          GEvent.commit (GitWorker.message gw),
          GEvent.finished true
            ("Changes committed successfully with message: " ++ GitWorker.message gw)],
         some { repo with
                  staged := repo.staged ++
                    repo.untracked_files.filter
                      (fun item => !(pyStartsWith item "node_modules/")) ++
                    repo.modified_files,
                  commits := repo.commits ++ [GitWorker.message gw] })) ∧
    (∀ (gw : GitWorker) (m : String), m ≠ "" → gw.commit_message = some m →
      GitWorker.message gw = m) ∧
    (∀ gw : GitWorker, gw.commit_message = none ∨ gw.commit_message = some "" →
      GitWorker.message gw = "Initial commit: Project setup") ∧
    (∀ (gw : GitWorker) (world : GitWorld),
      gw.operation = "commit" → gw.is_running = true → world.repoAt = none →
      GitWorker.run gw world =
        ([GEvent.progress "Creating commit...",
          GEvent.finished false world.invalidRepoErr], none)) := by
  refine ⟨?_, ?_, ?_, ?_⟩
  · intro gw world repo hop hrun hrepo
    unfold GitWorker.run
    rw [hrun, hop, hrepo]
    simp
  · intro gw m hm hcm
    unfold GitWorker.message
    rw [hcm]
    simp [hm]
  · intro gw hcm
    rcases hcm with h | h
    · unfold GitWorker.message
      rw [h]
    · unfold GitWorker.message
      rw [h]
      simp
  · intro gw world hop hrun hrepo
    unfold GitWorker.run
    rw [hrun, hop, hrepo]
    simp

/-- Commit-operation worker fixture. -/
def gwCommit : GitWorker where
  repo_path := "/repo"
  operation := "commit"
  commit_message := some "Add feature"
  remote_url := none
  branch := none
  is_running := true

/-- A repository with two new files (one inside the dependency cache), one
modified tracked file and one prior commit. -/
def repoSample : GRepo where
  untracked_files := ["a.txt", "node_modules/pkg/index.js", "b.txt"]
  modified_files := ["c.txt"]
  staged := []
  commits := ["Initial commit: Project setup"]
  heads := ["main"]
  remote_url := none

/-- World fixture holding `repoSample` at the path. -/
def worldSample : GitWorld where
  repoAt := some repoSample
  invalidRepoErr := "/repo is not a git repository"

/-- C9, witness: the theorem applied to the fixture repository; the
dependency-cache file is skipped, the other three changes are staged, and
exactly one commit with the verbatim message is appended. -/
theorem C9_witness :
    gwCommit.operation = "commit" ∧ gwCommit.is_running = true ∧
    worldSample.repoAt = some repoSample ∧
    GitWorker.run gwCommit worldSample =
      ([GEvent.progress "Creating commit...",
        GEvent.addFiles ["a.txt", "b.txt"],
        GEvent.addFiles ["c.txt"],
        GEvent.commit "Add feature",
        GEvent.finished true "Changes committed successfully with message: Add feature"],
       some { untracked_files := ["a.txt", "node_modules/pkg/index.js", "b.txt"],
              modified_files := ["c.txt"],
              staged := ["a.txt", "b.txt", "c.txt"],
              commits := ["Initial commit: Project setup", "Add feature"],
              heads := ["main"],
              remote_url := none }) := by
  refine ⟨rfl, rfl, rfl, ?_⟩
  rw [C9_commit_operation.1 gwCommit worldSample repoSample rfl rfl rfl]
  rfl

/-! ## C1 — failure of the base dependency install short-circuits the run -/

/-- C1: when the scaffold invocation succeeds but the base `npm install`
reports failure, the run's trace is exactly the init/scaffold/install
events followed by the error log and the failure signal carrying the
install step's error text: no feature-configuration sub-stage emits any
event, no file is written, and the single terminal signal is the failure. -/
theorem C1_install_failure_short_circuit (w : ProjectWorker) (env : Env)
    (hscaffold : env.proc (ProjectWorker.create_cmd w) = true)
    (hinstall : env.proc (ProjectWorker.install_cmd w) = false) :
    ProjectWorker.run w env = [
      Event.progress 0 "Initializing project...",
      Event.log "Starting project creation..." "INFO",
      Event.chdir w.project_directory,
      Event.mkdirP (ProjectWorker.project_path w),
      Event.progress 20 "Creating project structure...",
      Event.procCall (ProjectWorker.create_cmd w),
      Event.chdir (ProjectWorker.project_path w),
      Event.progress 40 "Installing dependencies...",
      Event.log "Installing core dependencies..." "INFO",
      Event.procCall (ProjectWorker.install_cmd w),
      Event.log "Error: Failed to install core dependencies" "ERROR",
      Event.finished false "Failed to install core dependencies"] ∧
    anyWrite (ProjectWorker.run w env) = false ∧
    (ProjectWorker.run w env).getLast? =
      some (Event.finished false "Failed to install core dependencies") ∧
    finishedCount (ProjectWorker.run w env) = 1 := by
  have htrace : ProjectWorker.run w env = [
      Event.progress 0 "Initializing project...",
      Event.log "Starting project creation..." "INFO",
      Event.chdir w.project_directory,
      Event.mkdirP (ProjectWorker.project_path w),
      Event.progress 20 "Creating project structure...",
      Event.procCall (ProjectWorker.create_cmd w),
      Event.chdir (ProjectWorker.project_path w),
      Event.progress 40 "Installing dependencies...",
      Event.log "Installing core dependencies..." "INFO",
      Event.procCall (ProjectWorker.install_cmd w),
      Event.log "Error: Failed to install core dependencies" "ERROR",
      Event.finished false "Failed to install core dependencies"] := by
    simp [ProjectWorker.run, ProjectWorker.runBody, ProjectWorker.runSteps, stepSeq,
      pseq, emitE, pnop, checkedProc, ProjectWorker.emit_log, hscaffold, hinstall]
  refine ⟨htrace, ?_, ?_, ?_⟩ <;> rw [htrace] <;> rfl

/-- C1, witness: a concrete worker and an environment failing exactly on
`npm install`. -/
theorem C1_witness :
    envInstallFail.proc (ProjectWorker.create_cmd sampleWorker) = true ∧
    envInstallFail.proc (ProjectWorker.install_cmd sampleWorker) = false ∧
    (ProjectWorker.run sampleWorker envInstallFail).getLast? =
      some (Event.finished false "Failed to install core dependencies") :=
  ⟨rfl, rfl,
    (C1_install_failure_short_circuit sampleWorker envInstallFail rfl rfl).2.2.1⟩

end RPA

namespace RPA

/-! ## C4 — the generated tsconfig.json -/

theorem mem_setup_features_of_mem_body {w : ProjectWorker} {env : Env} {e : Event}
    (h : e ∈ (ProjectWorker.setup_features_body w env).1) :
    e ∈ (ProjectWorker.setup_features w env).1 := by
  unfold ProjectWorker.setup_features
  rcases hb : (ProjectWorker.setup_features_body w env).2 with er | u
  · exact List.mem_append_left _ h
  · exact h

/-- C4: whenever the pipeline reaches the feature-configuration stage (the
scaffold and base-install invocations succeeded) on a configuration with
`typescript = true`, the run writes `tsconfig.json` with the fixed
`ts_config` JSON object — independently of every other configuration
field — and that object has `strict: true` and `jsx: "react-jsx"` inside
`compilerOptions` and exactly the top-level keys `compilerOptions`,
`include`, `references`. -/
theorem C4_tsconfig_strict (w : ProjectWorker) (env : Env)
    (hscaffold : env.proc (ProjectWorker.create_cmd w) = true)
    (hinstall : env.proc (ProjectWorker.install_cmd w) = true)
    (hts : w.config.typescript = true) :
    Event.writeFile "tsconfig.json" (FileContent.json ts_config) ∈ ProjectWorker.run w env ∧
    ts_config.lookup "compilerOptions" = some ts_compilerOptions ∧
    ts_compilerOptions.lookup "strict" = some (Json.bool true) ∧
    ts_compilerOptions.lookup "jsx" = some (Json.str "react-jsx") ∧
    ts_config.keys = ["compilerOptions", "include", "references"] := by
  refine ⟨?_, rfl, rfl, rfl, rfl⟩
  apply mem_run_of_mem_runBody
  unfold ProjectWorker.runBody ProjectWorker.runSteps
  refine mem_stepSeq_tail stepOk_emitE ?_
  refine mem_stepSeq_tail stepOk_emitE ?_
  refine mem_stepSeq_tail stepOk_emitE ?_
  refine mem_stepSeq_tail stepOk_emitE ?_
  refine mem_stepSeq_tail stepOk_emitE ?_
  refine mem_stepSeq_tail (stepOk_checkedProc hscaffold) ?_
  refine mem_stepSeq_tail stepOk_emitE ?_
  refine mem_stepSeq_tail stepOk_emitE ?_
  refine mem_stepSeq_tail stepOk_emitE ?_
  refine mem_stepSeq_tail (stepOk_checkedProc hinstall) ?_
  refine mem_stepSeq_tail stepOk_emitE ?_
  refine mem_stepSeq_head ?_
  apply mem_setup_features_of_mem_body
  unfold ProjectWorker.setup_features_body
  refine mem_stepSeq_head ?_
  rw [hts]
  simp only [if_true]
  unfold ProjectWorker.setup_typescript
  refine mem_stepSeq_tail stepOk_emitE ?_
  refine mem_stepSeq_head ?_
  exact List.mem_singleton.mpr rfl

/-- C4, witness: the theorem applied to the default configuration in an
all-successful environment. -/
theorem C4_witness :
    envAllOk.proc (ProjectWorker.create_cmd sampleWorker) = true ∧
    envAllOk.proc (ProjectWorker.install_cmd sampleWorker) = true ∧
    sampleWorker.config.typescript = true ∧
    Event.writeFile "tsconfig.json" (FileContent.json ts_config) ∈
      ProjectWorker.run sampleWorker envAllOk :=
  ⟨rfl, rfl, rfl, (C4_tsconfig_strict sampleWorker envAllOk rfl rfl rfl).1⟩

end RPA

namespace RPA

/-! ## C8 — there is no Finalize stage writing manifest script entries -/

/-- C8, counterexample: a fully successful run over the full-featured
default configuration (git integration enabled) never writes the project
manifest `package.json`, so no stage writes the manifest's script entries
before the version-control stage (or anywhere else). -/
theorem C8_no_manifest_write_counterexample :
    writesTo "package.json" (ProjectWorker.run sampleWorker envAllOk) = false ∧
    (ProjectWorker.run sampleWorker envAllOk).getLast? =
      some (Event.finished true "Project created successfully!") ∧
    sampleWorker.config.git_integration = true := ⟨rfl, rfl, rfl⟩

/-- C8, amended: the pipeline of this version has no Finalize stage at all:
no run — over any configuration and any environment — ever writes the
project manifest `package.json` (its script entries are the ones the
scaffolder generated, untouched). -/
theorem C8_no_manifest_write (w : ProjectWorker) (env : Env) :
    writesTo "package.json" (ProjectWorker.run w env) = false := by
  have hall : (ProjectWorker.run w env).all
      (fun e => !(writeToP "package.json" e)) = true := by
    refine run_all ?_ (fun _ _ => rfl) (fun _ _ => rfl)
    refine stepAll_runBody (fun _ _ => rfl) (fun _ _ => rfl) (fun _ => rfl)
      (fun _ => rfl) (fun _ _ => rfl) rfl rfl ?_ ?_ ?_ ?_ ?_ ?_
    · refine stepAll_setup_features (fun _ _ => rfl) ?_
      refine stepAll_setup_features_body ?_ ?_ ?_
      · exact stepAll_ite
          (stepAll_setup_typescript (fun _ _ => rfl) (by decide)) stepAll_pnop
      · exact stepAll_ite
          (stepAll_setup_styling (fun _ _ => rfl) (fun _ => rfl) rfl rfl
            (by decide) (by decide) rfl rfl (by decide) (by decide)) stepAll_pnop
      · exact stepAll_ite
          (stepAll_setup_linting (fun _ _ => rfl) rfl (by decide) rfl (by decide))
          stepAll_pnop
    · exact stepAll_ite
        (stepAll_setup_testing (fun _ _ => rfl) (fun _ => rfl) rfl rfl
          (by decide) (by decide)) stepAll_pnop
    · exact stepAll_ite
        (stepAll_setup_router (fun _ _ => rfl) (fun _ => rfl) rfl
          (by decide) (by decide) (by decide) (by decide)) stepAll_pnop
    · exact stepAll_ite
        (stepAll_setup_state_management (fun _ _ => rfl) (fun _ => rfl) rfl rfl
          (by decide) (by decide) (by decide)) stepAll_pnop
    · exact stepAll_ite
        (stepAll_setup_ci_cd (fun _ _ => rfl) (fun _ => rfl) (by decide) (by decide))
        stepAll_pnop
    · exact stepAll_ite
        (stepAll_setup_git (fun _ _ => rfl) rfl rfl rfl (by decide)) stepAll_pnop
  rw [writesTo, List.any_eq_false]
  intro x hx
  have hx2 := List.all_eq_true.mp hall x hx
  simpa using hx2

end RPA

namespace RPA

/-! ## C7 — the deployment descriptor -/

/-- Occurrence of a character pattern inside a character list. -/
def subListOccurs (pat : List Char) : List Char → Bool
  | [] => List.isPrefixOf pat []
  | c :: rest => List.isPrefixOf pat (c :: rest) || subListOccurs pat rest

/-- Whether `pat` occurs as a substring of `s` (over the character lists so
that it evaluates by kernel reduction). -/
def containsSub (s pat : String) : Bool :=
  subListOccurs pat.data s.data

/-- The default configuration with `ci_cd` switched off: the deployment
platform is still `"Vercel"`. -/
def vercelNoCiWorker : ProjectWorker where
  config := { ProjectConfig.create_default with ci_cd := false }
  npm_path := "npm"
  npx_path := "npx"
  project_directory := "/projects"

/-- C7, counterexample: with `deployment_platform = "Vercel"` selected but
`ci_cd = false`, a fully successful run writes no `vercel.json` — the
descriptor is not written independently of the `ci_cd` flag, because
`setup_ci_cd` (which contains the Vercel branch) only runs when `ci_cd`
is true. -/
theorem C7_descriptor_needs_ci_cd :
    vercelNoCiWorker.config.deployment_platform = some "Vercel" ∧
    vercelNoCiWorker.config.ci_cd = false ∧
    writesTo "vercel.json" (ProjectWorker.run vercelNoCiWorker envAllOk) = false ∧
    (ProjectWorker.run vercelNoCiWorker envAllOk).getLast? =
      some (Event.finished true "Project created successfully!") := ⟨rfl, rfl, rfl, rfl⟩

theorem no_vercel_write_of_ci_slot {w : ProjectWorker} {env : Env}
    (hci : stepAll (fun e => !(writeToP "vercel.json" e))
      (if w.config.ci_cd then ProjectWorker.setup_ci_cd w else pnop)) :
    writesTo "vercel.json" (ProjectWorker.run w env) = false := by
  have hall : (ProjectWorker.run w env).all
      (fun e => !(writeToP "vercel.json" e)) = true := by
    refine run_all ?_ (fun _ _ => rfl) (fun _ _ => rfl)
    refine stepAll_runBody (fun _ _ => rfl) (fun _ _ => rfl) (fun _ => rfl)
      (fun _ => rfl) (fun _ _ => rfl) rfl rfl ?_ ?_ ?_ ?_ hci ?_
    · refine stepAll_setup_features (fun _ _ => rfl) ?_
      refine stepAll_setup_features_body ?_ ?_ ?_
      · exact stepAll_ite
          (stepAll_setup_typescript (fun _ _ => rfl) (by decide)) stepAll_pnop
      · exact stepAll_ite
          (stepAll_setup_styling (fun _ _ => rfl) (fun _ => rfl) rfl rfl
            (by decide) (by decide) rfl rfl (by decide) (by decide)) stepAll_pnop
      · exact stepAll_ite
          (stepAll_setup_linting (fun _ _ => rfl) rfl (by decide) rfl (by decide))
          stepAll_pnop
    · exact stepAll_ite
        (stepAll_setup_testing (fun _ _ => rfl) (fun _ => rfl) rfl rfl
          (by decide) (by decide)) stepAll_pnop
    · exact stepAll_ite
        (stepAll_setup_router (fun _ _ => rfl) (fun _ => rfl) rfl
          (by decide) (by decide) (by decide) (by decide)) stepAll_pnop
    · exact stepAll_ite
        (stepAll_setup_state_management (fun _ _ => rfl) (fun _ => rfl) rfl rfl
          (by decide) (by decide) (by decide)) stepAll_pnop
    · exact stepAll_ite
        (stepAll_setup_git (fun _ _ => rfl) rfl rfl rfl (by decide)) stepAll_pnop
  rw [writesTo, List.any_eq_false]
  intro x hx
  have hx2 := List.all_eq_true.mp hall x hx
  simpa using hx2

set_option maxRecDepth 40000 in
/-- C7, amended: the Vercel static-build descriptor is written exactly in
the runs whose configuration has both `ci_cd = true` and
`deployment_platform = "Vercel"`: on a successful such run `vercel.json` is
written (naming the `dist` build output directory and the catch-all route
to `/index.html`); with `ci_cd = false` no run ever writes it, and with any
selected platform other than `"Vercel"` no run ever writes it either. -/
theorem C7_vercel_descriptor (w : ProjectWorker) (env : Env) :
    (goodEnv env → w.config.ci_cd = true →
      w.config.deployment_platform = some "Vercel" →
      Event.writeFile "vercel.json" (FileContent.text vercel_config_text) ∈
        ProjectWorker.run w env ∧
      containsSub vercel_config_text "\"distDir\": \"dist\"" = true ∧
      containsSub vercel_config_text "\"dest\": \"/index.html\"" = true) ∧
    (w.config.ci_cd = false →
      writesTo "vercel.json" (ProjectWorker.run w env) = false) ∧
    (w.config.deployment_platform ≠ some "Vercel" →
      writesTo "vercel.json" (ProjectWorker.run w env) = false) := by
  refine ⟨?_, ?_, ?_⟩
  · intro hgood hci hdep
    refine ⟨?_, rfl, rfl⟩
    apply mem_run_of_mem_runBody
    unfold ProjectWorker.runBody ProjectWorker.runSteps
    refine mem_stepSeq_tail stepOk_emitE ?_
    refine mem_stepSeq_tail stepOk_emitE ?_
    refine mem_stepSeq_tail stepOk_emitE ?_
    refine mem_stepSeq_tail stepOk_emitE ?_
    refine mem_stepSeq_tail stepOk_emitE ?_
    refine mem_stepSeq_tail (stepOk_checkedProc (hgood.1 _)) ?_
    refine mem_stepSeq_tail stepOk_emitE ?_
    refine mem_stepSeq_tail stepOk_emitE ?_
    refine mem_stepSeq_tail stepOk_emitE ?_
    refine mem_stepSeq_tail (stepOk_checkedProc (hgood.1 _)) ?_
    refine mem_stepSeq_tail stepOk_emitE ?_
    refine mem_stepSeq_tail (stepOk_setup_features hgood.1) ?_
    refine mem_stepSeq_tail
      (stepOk_ite (stepOk_setup_testing hgood.1) stepOk_pnop) ?_
    refine mem_stepSeq_tail
      (stepOk_ite (stepOk_setup_router hgood.1) stepOk_pnop) ?_
    refine mem_stepSeq_tail
      (stepOk_ite (stepOk_setup_state_management hgood.1) stepOk_pnop) ?_
    refine mem_stepSeq_head ?_
    rw [hci]
    simp only [if_true]
    unfold ProjectWorker.setup_ci_cd
    refine mem_stepSeq_tail stepOk_emitE ?_
    refine mem_stepSeq_head ?_
    rw [hdep]
    simp only [beq_self_eq_true, if_true]
    exact List.mem_singleton.mpr rfl
  · intro hci
    have hstep : (if w.config.ci_cd then ProjectWorker.setup_ci_cd w else pnop) =
        pnop := by
      rw [hci]
      rfl
    refine no_vercel_write_of_ci_slot ?_
    rw [hstep]
    exact stepAll_pnop
  · intro hdep
    have e4 : (w.config.deployment_platform == some "Vercel") = false := by
      simpa using hdep
    refine no_vercel_write_of_ci_slot ?_
    refine stepAll_ite ?_ stepAll_pnop
    unfold ProjectWorker.setup_ci_cd
    have hv : (if w.config.deployment_platform == some "Vercel"
        then ProjectWorker.setup_vercel_deployment w else pnop) = pnop := by
      rw [e4]
      rfl
    refine stepAll_stepSeq ?_
    intro s hs
    simp only [List.mem_cons, List.not_mem_nil, or_false] at hs
    rcases hs with rfl | rfl | rfl | rfl
    · exact stepAll_emitE rfl
    · rw [hv]
      exact stepAll_pnop
    · exact stepAll_emitE rfl
    · exact stepAll_emitE (by decide)

/-- C7, witness: the default configuration has `ci_cd = true` and
`deployment_platform = "Vercel"`; in the all-successful environment the
descriptor write is part of the run. -/
theorem C7_witness :
    goodEnv envAllOk ∧ sampleWorker.config.ci_cd = true ∧
    sampleWorker.config.deployment_platform = some "Vercel" ∧
    Event.writeFile "vercel.json" (FileContent.text vercel_config_text) ∈
      ProjectWorker.run sampleWorker envAllOk :=
  ⟨envAllOk_good, rfl, rfl,
    ((C7_vercel_descriptor sampleWorker envAllOk).1 envAllOk_good rfl rfl).1⟩

end RPA

namespace RPA

/-! ## C6 — the testing sub-stage's files -/

/-- A configuration selecting the jest framework and nothing else. -/
def jestConfig : ProjectConfig where
  name := "demo"
  template := "react"
  dependencies := []
  dev_dependencies := []
  git_integration := false
  testing := true
  test_framework := some "jest"
  styling_solution := "None"
  typescript := false
  eslint := false
  prettier := false
  package_manager := "npm"
  router := false
  state_management := none
  ci_cd := false
  deployment_platform := none

/-- Worker over `jestConfig`. -/
def jestWorker : ProjectWorker where
  config := jestConfig
  npm_path := "npm"
  npx_path := "npx"
  project_directory := "/projects"

/-- C6, counterexample: with `testing = true` and `test_framework = "jest"`,
a fully successful run installs the jest dev dependencies but writes no
setup file and no example test (indeed no file at all): the claim's "
whichever test_framework value is selected" fails for every value other
than `"vitest"`. -/
theorem C6_jest_framework_writes_no_files :
    jestWorker.config.testing = true ∧
    jestWorker.config.test_framework = some "jest" ∧
    callsProc ["npm", "install", "-D", "jest", "@testing-library/react",
      "@testing-library/user-event", "@testing-library/jest-dom", "@types/jest"]
      (ProjectWorker.run jestWorker envAllOk) = true ∧
    anyWrite (ProjectWorker.run jestWorker envAllOk) = false ∧
    (ProjectWorker.run jestWorker envAllOk).getLast? =
      some (Event.finished true "Project created successfully!") := ⟨rfl, rfl, rfl, rfl, rfl⟩

set_option maxRecDepth 40000 in
/-- C6, amended: when the pipeline reaches the testing sub-stage and the
dev-dependency install succeeds, the per-test setup file (registering
cleanup after each test) and the example greeting test are written exactly
when `test_framework = "vitest"`; for any other selected framework the
stage performs the install but writes no file. -/
theorem C6_testing_stage_files (w : ProjectWorker) (env : Env)
    (hscaffold : env.proc (ProjectWorker.create_cmd w) = true)
    (hinstall : env.proc (ProjectWorker.install_cmd w) = true)
    (hfeat : stepOk (ProjectWorker.setup_features w env))
    (htest : w.config.testing = true)
    (hdev : env.proc ([w.npm_path, "install", "-D"] ++ ProjectWorker.testing_deps w) = true) :
    (w.config.test_framework = some "vitest" →
      Event.writeFile "src/test/setup.ts" (FileContent.text vitest_setup) ∈
        ProjectWorker.run w env ∧
      Event.writeFile "src/test/App.test.tsx" (FileContent.text vitest_example_test) ∈
        ProjectWorker.run w env ∧
      containsSub vitest_setup "afterEach" = true ∧
      containsSub vitest_setup "cleanup()" = true ∧
      containsSub vitest_example_test "getByText(/hello/i)" = true) ∧
    ((w.config.test_framework == some "vitest") = false →
      anyWrite (ProjectWorker.setup_testing w env).1 = false) := by
  constructor
  · intro hvt
    have hnav : ∀ e : Event, e ∈ (ProjectWorker.setup_testing w env).1 →
        e ∈ ProjectWorker.run w env := by
      intro e he
      apply mem_run_of_mem_runBody
      unfold ProjectWorker.runBody ProjectWorker.runSteps
      refine mem_stepSeq_tail stepOk_emitE ?_
      refine mem_stepSeq_tail stepOk_emitE ?_
      refine mem_stepSeq_tail stepOk_emitE ?_
      refine mem_stepSeq_tail stepOk_emitE ?_
      refine mem_stepSeq_tail stepOk_emitE ?_
      refine mem_stepSeq_tail (stepOk_checkedProc hscaffold) ?_
      refine mem_stepSeq_tail stepOk_emitE ?_
      refine mem_stepSeq_tail stepOk_emitE ?_
      refine mem_stepSeq_tail stepOk_emitE ?_
      refine mem_stepSeq_tail (stepOk_checkedProc hinstall) ?_
      refine mem_stepSeq_tail stepOk_emitE ?_
      refine mem_stepSeq_tail hfeat ?_
      refine mem_stepSeq_head ?_
      rw [htest]
      simpa only [if_true] using he
    refine ⟨?_, ?_, rfl, rfl, rfl⟩
    · apply hnav
      unfold ProjectWorker.setup_testing
      refine mem_stepSeq_tail stepOk_emitE ?_
      refine mem_stepSeq_tail (stepOk_checkedProc hdev) ?_
      refine mem_stepSeq_head ?_
      rw [hvt]
      simp only [beq_self_eq_true, if_true]
      refine mem_stepSeq_tail stepOk_emitE ?_
      refine mem_stepSeq_head ?_
      exact List.mem_singleton.mpr rfl
    · apply hnav
      unfold ProjectWorker.setup_testing
      refine mem_stepSeq_tail stepOk_emitE ?_
      refine mem_stepSeq_tail (stepOk_checkedProc hdev) ?_
      refine mem_stepSeq_head ?_
      rw [hvt]
      simp only [beq_self_eq_true, if_true]
      refine mem_stepSeq_tail stepOk_emitE ?_
      refine mem_stepSeq_tail stepOk_emitE ?_
      refine mem_stepSeq_head ?_
      exact List.mem_singleton.mpr rfl
  · intro hvt
    have hstep : (if w.config.test_framework == some "vitest" then
        stepSeq [
          emitE (Event.makedirs "src/test"),
          emitE (Event.writeFile "src/test/setup.ts" (FileContent.text vitest_setup)),
          emitE (Event.writeFile "src/test/App.test.tsx"
            (FileContent.text vitest_example_test))
        ] else pnop) = pnop := by
      rw [hvt]
      rfl
    have hall : stepAll (fun e => !(isWriteEv e)) (ProjectWorker.setup_testing w env) := by
      unfold ProjectWorker.setup_testing
      rw [hstep]
      refine stepAll_stepSeq ?_
      intro s hs
      simp only [List.mem_cons, List.not_mem_nil, or_false] at hs
      rcases hs with rfl | rfl | rfl
      · exact stepAll_emitE rfl
      · exact stepAll_checkedProc rfl
      · exact stepAll_pnop
    rw [anyWrite, List.any_eq_false]
    intro x hx
    have hx2 := List.all_eq_true.mp hall x hx
    simpa using hx2

/-- C6, witness: the default configuration (vitest) in the all-successful
environment; both files are written by the run. -/
theorem C6_witness :
    envAllOk.proc (ProjectWorker.create_cmd sampleWorker) = true ∧
    envAllOk.proc (ProjectWorker.install_cmd sampleWorker) = true ∧
    stepOk (ProjectWorker.setup_features sampleWorker envAllOk) ∧
    sampleWorker.config.testing = true ∧
    envAllOk.proc ([sampleWorker.npm_path, "install", "-D"] ++
      ProjectWorker.testing_deps sampleWorker) = true ∧
    sampleWorker.config.test_framework = some "vitest" ∧
    Event.writeFile "src/test/setup.ts" (FileContent.text vitest_setup) ∈
      ProjectWorker.run sampleWorker envAllOk :=
  ⟨rfl, rfl, rfl, rfl, rfl, rfl,
    ((C6_testing_stage_files sampleWorker envAllOk rfl rfl rfl rfl rfl).1 rfl).1⟩

end RPA

namespace RPA

/-! ## C5 — suppressed features write nothing and invoke nothing -/

/-- Events belonging to the testing feature area: the testing dev-dependency
installs and the two testing files. -/
def testingWork (w : ProjectWorker) : Event → Bool
  | Event.procCall c =>
      decide (c = [w.npm_path, "install", "-D", "vitest", "@testing-library/react",
        "@testing-library/user-event", "@testing-library/jest-dom", "jsdom"]) ||
      decide (c = [w.npm_path, "install", "-D", "jest", "@testing-library/react",
        "@testing-library/user-event", "@testing-library/jest-dom", "@types/jest"])
  | Event.writeFile p _ =>
      decide (p = "src/test/setup.ts") || decide (p = "src/test/App.test.tsx")
  | _ => false

/-- Events belonging to the router feature area. -/
def routerWork (w : ProjectWorker) : Event → Bool
  | Event.procCall c => decide (c = [w.npm_path, "install", "react-router-dom"])
  | Event.writeFile p _ =>
      decide (p = "src/router/index.tsx") || decide (p = "src/pages/Home.tsx") ||
      decide (p = "src/pages/About.tsx") || decide (p = "src/pages/NotFound.tsx")
  | _ => false

/-- Events belonging to the state-management feature area. -/
def stateWork (w : ProjectWorker) : Event → Bool
  | Event.procCall c =>
      decide (c = [w.npm_path, "install", "@reduxjs/toolkit", "react-redux"]) ||
      decide (c = [w.npm_path, "install", "zustand"])
  | Event.writeFile p _ =>
      decide (p = "src/store/index.ts") || decide (p = "src/store/slices/counterSlice.ts")
  | _ => false

/-- Events belonging to the deployment feature area. -/
def deployWork : Event → Bool
  | Event.writeFile p _ => decide (p = "vercel.json")
  | _ => false

/-- Any event of the four feature areas of claim C5. -/
def featureOffWork (w : ProjectWorker) (e : Event) : Bool :=
  testingWork w e || routerWork w e || stateWork w e || deployWork e

theorem featureOffWork_create_cmd (w : ProjectWorker) :
    (!(featureOffWork w (Event.procCall (ProjectWorker.create_cmd w)))) = true := by
  unfold ProjectWorker.create_cmd
  split <;> simp [featureOffWork, testingWork, routerWork, stateWork, deployWork]

theorem featureOffWork_install_cmd (w : ProjectWorker) :
    (!(featureOffWork w (Event.procCall (ProjectWorker.install_cmd w)))) = true := by
  unfold ProjectWorker.install_cmd
  simp [featureOffWork, testingWork, routerWork, stateWork, deployWork]

/-- C5: with `testing = false`, `router = false`, `state_management = None`
and `deployment_platform = None`, no event of any run — whatever the
environment and the remaining configuration fields — writes a file of the
testing, router, state-management or deployment feature areas or invokes a
package-manager command related to them. -/
theorem C5_suppressed_features (w : ProjectWorker) (env : Env)
    (h1 : w.config.testing = false) (h2 : w.config.router = false)
    (h3 : w.config.state_management = none)
    (h4 : w.config.deployment_platform = none) :
    (ProjectWorker.run w env).all (fun e => !(featureOffWork w e)) = true := by
  refine run_all ?_ (fun _ _ => rfl) (fun _ _ => rfl)
  refine stepAll_runBody (fun _ _ => rfl) (fun _ _ => rfl) (fun _ => rfl)
    (fun _ => rfl) (fun _ _ => rfl) (featureOffWork_create_cmd w)
    (featureOffWork_install_cmd w) ?_ ?_ ?_ ?_ ?_ ?_
  · refine stepAll_setup_features (fun _ _ => rfl) ?_
    refine stepAll_setup_features_body ?_ ?_ ?_
    · exact stepAll_ite
        (stepAll_setup_typescript (fun _ _ => rfl) (by simp [featureOffWork, testingWork, routerWork, stateWork, deployWork])) stepAll_pnop
    · refine stepAll_ite ?_ stepAll_pnop
      refine stepAll_setup_styling (fun _ _ => rfl) (fun _ => rfl) ?_ ?_
        (by simp [featureOffWork, testingWork, routerWork, stateWork, deployWork]) (by simp [featureOffWork, testingWork, routerWork, stateWork, deployWork]) ?_ ?_ (by simp [featureOffWork, testingWork, routerWork, stateWork, deployWork]) (by simp [featureOffWork, testingWork, routerWork, stateWork, deployWork])
      · simp [featureOffWork, testingWork, routerWork, stateWork, deployWork]
      · simp [featureOffWork, testingWork, routerWork, stateWork, deployWork]
      · simp [featureOffWork, testingWork, routerWork, stateWork, deployWork]
      · simp [featureOffWork, testingWork, routerWork, stateWork, deployWork]
    · refine stepAll_ite ?_ stepAll_pnop
      refine stepAll_setup_linting (fun _ _ => rfl) ?_ (by simp [featureOffWork, testingWork, routerWork, stateWork, deployWork]) ?_ (by simp [featureOffWork, testingWork, routerWork, stateWork, deployWork])
      · simp [featureOffWork, testingWork, routerWork, stateWork, deployWork]
      · simp [featureOffWork, testingWork, routerWork, stateWork, deployWork]
  · have e1 : (if w.config.testing then ProjectWorker.setup_testing w env else pnop) =
        pnop := by
      rw [h1]
      rfl
    rw [e1]
    exact stepAll_pnop
  · have e2 : (if w.config.router then ProjectWorker.setup_router w env else pnop) =
        pnop := by
      rw [h2]
      rfl
    rw [e2]
    exact stepAll_pnop
  · have e3 : (if truthyOpt w.config.state_management
        then ProjectWorker.setup_state_management w env else pnop) = pnop := by
      rw [h3]
      rfl
    rw [e3]
    exact stepAll_pnop
  · refine stepAll_ite ?_ stepAll_pnop
    unfold ProjectWorker.setup_ci_cd
    have e4 : (if w.config.deployment_platform == some "Vercel"
        then ProjectWorker.setup_vercel_deployment w else pnop) = pnop := by
      rw [h4]
      rfl
    refine stepAll_stepSeq ?_
    intro s hs
    simp only [List.mem_cons, List.not_mem_nil, or_false] at hs
    rcases hs with rfl | rfl | rfl | rfl
    · exact stepAll_emitE rfl
    · rw [e4]
      exact stepAll_pnop
    · exact stepAll_emitE rfl
    · exact stepAll_emitE (by simp [featureOffWork, testingWork, routerWork, stateWork, deployWork])
  · exact stepAll_ite
      (stepAll_setup_git (fun _ _ => rfl) rfl rfl rfl (by simp [featureOffWork, testingWork, routerWork, stateWork, deployWork])) stepAll_pnop

/-- The default configuration with the four features of C5 disabled. -/
def noFeatWorker : ProjectWorker where
  config := { ProjectConfig.create_default with
                testing := false, router := false,
                state_management := none, deployment_platform := none }
  npm_path := "npm"
  npx_path := "npx"
  project_directory := "/projects"

/-- C5, witness: the theorem applied to a concrete configuration with the
four features disabled, in the all-successful environment. -/
theorem C5_witness :
    noFeatWorker.config.testing = false ∧ noFeatWorker.config.router = false ∧
    noFeatWorker.config.state_management = none ∧
    noFeatWorker.config.deployment_platform = none ∧
    (ProjectWorker.run noFeatWorker envAllOk).all
      (fun e => !(featureOffWork noFeatWorker e)) = true :=
  ⟨rfl, rfl, rfl, rfl, C5_suppressed_features noFeatWorker envAllOk rfl rfl rfl rfl⟩

end RPA

namespace RPA

/-! ## C10 — unrecognized choice strings are silently skipped -/

/-- C10: for any `styling_solution` other than the three recognized
solutions and any selected `state_management` other than the two recognized
libraries, the two dispatching sub-stages emit only their log line — no file
write, no process invocation, no exception — and a run in an otherwise
all-successful environment still ends with the success signal. -/
theorem C10_unrecognized_choices (w : ProjectWorker) (env : Env) (s : String)
    (hgood : goodEnv env)
    (h1 : (w.config.styling_solution == "Tailwind CSS") = false)
    (h2 : (w.config.styling_solution == "Styled Components") = false)
    (h3 : (w.config.styling_solution == "CSS Modules") = false)
    (hs : w.config.state_management = some s)
    (hs1 : (s == "Redux Toolkit") = false)
    (hs2 : (s == "Zustand") = false) :
    ProjectWorker.setup_styling w env =
      ([Event.log ("Setting up " ++ w.config.styling_solution ++ "...") "INFO"],
       Except.ok ()) ∧
    ProjectWorker.setup_state_management w env =
      ([Event.log ("Setting up " ++ s ++ "...") "INFO"], Except.ok ()) ∧
    (ProjectWorker.run w env).getLast? =
      some (Event.finished true "Project created successfully!") := by
  refine ⟨?_, ?_, run_last_of_ok hgood.1 hgood.2⟩
  · simp [ProjectWorker.setup_styling, h1, h2, h3, stepSeq, pseq, emitE, pnop,
      ProjectWorker.emit_log]
  · have hs1' : s ≠ "Redux Toolkit" := by simpa using hs1
    have hs2' : s ≠ "Zustand" := by simpa using hs2
    simp [ProjectWorker.setup_state_management, hs, hs1', hs2', stepSeq, pseq,
      emitE, pnop, ProjectWorker.emit_log]

/-- The default configuration with an unrecognized styling string (the
combo-box value `"None"`) and an unrecognized state-management library
(the combo-box value `"Jotai"`, which the worker does not handle). -/
def altChoiceWorker : ProjectWorker where
  config := { ProjectConfig.create_default with
                styling_solution := "None", state_management := some "Jotai" }
  npm_path := "npm"
  npx_path := "npx"
  project_directory := "/projects"

/-- C10, witness: the theorem applied to the `"None"`/`"Jotai"` choices in
the all-successful environment. -/
theorem C10_witness :
    (altChoiceWorker.config.styling_solution == "Tailwind CSS") = false ∧
    altChoiceWorker.config.state_management = some "Jotai" ∧
    (ProjectWorker.setup_styling altChoiceWorker envAllOk =
      ([Event.log "Setting up None..." "INFO"], Except.ok ()) ∧
     ProjectWorker.setup_state_management altChoiceWorker envAllOk =
      ([Event.log "Setting up Jotai..." "INFO"], Except.ok ()) ∧
     (ProjectWorker.run altChoiceWorker envAllOk).getLast? =
      some (Event.finished true "Project created successfully!")) :=
  ⟨rfl, rfl,
    C10_unrecognized_choices altChoiceWorker envAllOk "Jotai" envAllOk_good
      rfl rfl rfl rfl rfl rfl⟩

end RPA

namespace RPA

/-! ## C2 — stage ordering -/

theorem pseq_eq_of_ok {a b : Step} (h : a.2 = Except.ok ()) :
    pseq a b = (a.1 ++ b.1, b.2) := by
  unfold pseq
  rw [h]

theorem pseq_eq_of_error {a b : Step} {e : String} (h : a.2 = Except.error e) :
    pseq a b = (a.1, Except.error e) := by
  unfold pseq
  rw [h]

theorem run_of_body_ok {w : ProjectWorker} {env : Env} {evs : List Event}
    (h : ProjectWorker.runBody w env = (evs, Except.ok ())) :
    ProjectWorker.run w env = evs := by
  unfold ProjectWorker.run
  rw [h]

theorem run_of_body_error {w : ProjectWorker} {env : Env} {evs : List Event} {msg : String}
    (h : ProjectWorker.runBody w env = (evs, Except.error msg)) :
    ProjectWorker.run w env =
      evs ++ [Event.log ("Error: " ++ msg) "ERROR", Event.finished false msg] := by
  unfold ProjectWorker.run
  rw [h]

theorem create_cmd_ne_install_cmd (w : ProjectWorker) :
    ¬(ProjectWorker.create_cmd w = ProjectWorker.install_cmd w) := by
  unfold ProjectWorker.create_cmd ProjectWorker.install_cmd
  split <;> simp

/-- The events of the version-control stage together with the closing
reporting events of the `try` body (everything after the git stage starts):
every filesystem/process mutation among them is version-control work. -/
theorem stepAll_gitTail {w : ProjectWorker} {env : Env} :
    stepAll (fun e => !(Event.isWorkEvent e) || Event.isGitWork e)
      (stepSeq ((ProjectWorker.runSteps w env).drop 16)) := by
  have hdrop : (ProjectWorker.runSteps w env).drop 16 = [
      (if w.config.git_integration then ProjectWorker.setup_git w env else pnop),
      emitE (Event.progress 100 "Project created successfully!"),
      ProjectWorker.emit_log "Project setup completed successfully!" "SUCCESS",
      emitE (Event.finished true "Project created successfully!")] := rfl
  rw [hdrop]
  refine stepAll_stepSeq ?_
  intro s hs
  simp only [List.mem_cons, List.not_mem_nil, or_false] at hs
  rcases hs with rfl | rfl | rfl | rfl
  · exact stepAll_ite
      (stepAll_setup_git (fun _ _ => rfl) rfl rfl rfl (by decide)) stepAll_pnop
  · exact stepAll_emitE rfl
  · exact stepAll_emitE rfl
  · exact stepAll_emitE rfl

/-- No step before the version-control stage emits version-control work. -/
theorem stepAll_preGit {w : ProjectWorker} {env : Env} :
    stepAll (fun e => !(Event.isGitWork e))
      (stepSeq ((ProjectWorker.runSteps w env).take 16)) := by
  refine stepAll_stepSeq ?_
  intro s hs
  rw [show (ProjectWorker.runSteps w env).take 16 = [
      emitE (Event.progress 0 "Initializing project..."),
      ProjectWorker.emit_log "Starting project creation..." "INFO",
      emitE (Event.chdir w.project_directory),
      emitE (Event.mkdirP (ProjectWorker.project_path w)),
      emitE (Event.progress 20 "Creating project structure..."),
      checkedProc env (ProjectWorker.create_cmd w) "Failed to create project structure",
      emitE (Event.chdir (ProjectWorker.project_path w)),
      emitE (Event.progress 40 "Installing dependencies..."),
      ProjectWorker.emit_log "Installing core dependencies..." "INFO",
      checkedProc env (ProjectWorker.install_cmd w) "Failed to install core dependencies",
      emitE (Event.progress 60 "Setting up project features..."),
      ProjectWorker.setup_features w env,
      (if w.config.testing then ProjectWorker.setup_testing w env else pnop),
      (if w.config.router then ProjectWorker.setup_router w env else pnop),
      (if truthyOpt w.config.state_management
        then ProjectWorker.setup_state_management w env else pnop),
      (if w.config.ci_cd then ProjectWorker.setup_ci_cd w else pnop)] from rfl] at hs
  simp only [List.mem_cons, List.not_mem_nil, or_false] at hs
  rcases hs with rfl | rfl | rfl | rfl | rfl | rfl | rfl | rfl | rfl | rfl | rfl |
    rfl | rfl | rfl | rfl | rfl
  · exact stepAll_emitE rfl
  · exact stepAll_emitE rfl
  · exact stepAll_emitE rfl
  · exact stepAll_emitE rfl
  · exact stepAll_emitE rfl
  · exact stepAll_checkedProc rfl
  · exact stepAll_emitE rfl
  · exact stepAll_emitE rfl
  · exact stepAll_emitE rfl
  · exact stepAll_checkedProc rfl
  · exact stepAll_emitE rfl
  · refine stepAll_setup_features (fun _ _ => rfl) ?_
    refine stepAll_setup_features_body ?_ ?_ ?_
    · exact stepAll_ite
        (stepAll_setup_typescript (fun _ _ => rfl) (by decide)) stepAll_pnop
    · exact stepAll_ite
        (stepAll_setup_styling (fun _ _ => rfl) (fun _ => rfl) rfl rfl
          (by decide) (by decide) rfl rfl (by decide) (by decide)) stepAll_pnop
    · exact stepAll_ite
        (stepAll_setup_linting (fun _ _ => rfl) rfl (by decide) rfl (by decide))
        stepAll_pnop
  · exact stepAll_ite
      (stepAll_setup_testing (fun _ _ => rfl) (fun _ => rfl) rfl rfl
        (by decide) (by decide)) stepAll_pnop
  · exact stepAll_ite
      (stepAll_setup_router (fun _ _ => rfl) (fun _ => rfl) rfl
        (by decide) (by decide) (by decide) (by decide)) stepAll_pnop
  · exact stepAll_ite
      (stepAll_setup_state_management (fun _ _ => rfl) (fun _ => rfl) rfl rfl
        (by decide) (by decide) (by decide)) stepAll_pnop
  · exact stepAll_ite
      (stepAll_setup_ci_cd (fun _ _ => rfl) (fun _ => rfl) (by decide) (by decide))
      stepAll_pnop

end RPA

namespace RPA

/-- C2: in every run, (a) the scaffold (and every other) process invocation
happens only after the Init stage's directory creation: the trace splits
into a prefix containing the `mkdir` and free of process invocations,
followed by the rest; (b) if the base dependency install is invoked at all,
then the scaffold invocation succeeded and occurred in a strict prefix not
containing the install invocation; (c) the version-control stage is the
last stage attempted: the trace splits into a prefix free of
version-control work followed by a suffix whose only filesystem/process
mutations are version-control work. -/
theorem C2_stage_ordering (w : ProjectWorker) (env : Env) :
    (∃ pre rest, ProjectWorker.run w env = pre ++ rest ∧
      Event.mkdirP (ProjectWorker.project_path w) ∈ pre ∧
      pre.all (fun e => !(Event.isProcCall e)) = true) ∧
    (callsProc (ProjectWorker.install_cmd w) (ProjectWorker.run w env) = true →
      env.proc (ProjectWorker.create_cmd w) = true ∧
      ∃ pre rest, ProjectWorker.run w env = pre ++ rest ∧
        callsProc (ProjectWorker.create_cmd w) pre = true ∧
        callsProc (ProjectWorker.install_cmd w) pre = false) ∧
    (w.config.git_integration = true →
      ∃ pre rest, ProjectWorker.run w env = pre ++ rest ∧
        pre.all (fun e => !(Event.isGitWork e)) = true ∧
        rest.all (fun e => !(Event.isWorkEvent e) || Event.isGitWork e) = true) := by
  refine ⟨?_, ?_, ?_⟩
  · -- (a) Init completes before any process invocation
    have hsplit5 : ProjectWorker.runBody w env =
        pseq (stepSeq ((ProjectWorker.runSteps w env).take 5))
          (stepSeq ((ProjectWorker.runSteps w env).drop 5)) := by
      rw [ProjectWorker.runBody, ← stepSeq_append, List.take_append_drop]
    have hok5 : (stepSeq ((ProjectWorker.runSteps w env).take 5)).2 = Except.ok () := rfl
    have hA : (stepSeq ((ProjectWorker.runSteps w env).take 5)).1 = [
        Event.progress 0 "Initializing project...",
        Event.log "Starting project creation..." "INFO",
        Event.chdir w.project_directory,
        Event.mkdirP (ProjectWorker.project_path w),
        Event.progress 20 "Creating project structure..."] := rfl
    have hbody1 : (ProjectWorker.runBody w env).1 = [
        Event.progress 0 "Initializing project...",
        Event.log "Starting project creation..." "INFO",
        Event.chdir w.project_directory,
        Event.mkdirP (ProjectWorker.project_path w),
        Event.progress 20 "Creating project structure..."] ++
        (stepSeq ((ProjectWorker.runSteps w env).drop 5)).1 := by
      rw [hsplit5, pseq_fst_of_ok hok5, hA]
    obtain ⟨rest, hrun⟩ := run_decompose hbody1
    exact ⟨_, rest, hrun, by simp, rfl⟩
  · -- (b) the install invocation presupposes a successful scaffold
    intro hmem
    have hcreate : env.proc (ProjectWorker.create_cmd w) = true := by
      rcases hc : env.proc (ProjectWorker.create_cmd w) with _ | _
      · exfalso
        have htr : ProjectWorker.run w env = [
            Event.progress 0 "Initializing project...",
            Event.log "Starting project creation..." "INFO",
            Event.chdir w.project_directory,
            Event.mkdirP (ProjectWorker.project_path w),
            Event.progress 20 "Creating project structure...",
            Event.procCall (ProjectWorker.create_cmd w),
            Event.log "Error: Failed to create project structure" "ERROR",
            Event.finished false "Failed to create project structure"] := by
          simp [ProjectWorker.run, ProjectWorker.runBody, ProjectWorker.runSteps,
            stepSeq, pseq, emitE, pnop, checkedProc, ProjectWorker.emit_log, hc]
        rw [htr] at hmem
        simp [callsProc, procCallP] at hmem
        exact create_cmd_ne_install_cmd w hmem
      · rfl
    have hsplit9 : ProjectWorker.runBody w env =
        pseq (stepSeq ((ProjectWorker.runSteps w env).take 9))
          (stepSeq ((ProjectWorker.runSteps w env).drop 9)) := by
      rw [ProjectWorker.runBody, ← stepSeq_append, List.take_append_drop]
    have hok9 : (stepSeq ((ProjectWorker.runSteps w env).take 9)).2 = Except.ok () := by
      rw [show (ProjectWorker.runSteps w env).take 9 = [
          emitE (Event.progress 0 "Initializing project..."),
          ProjectWorker.emit_log "Starting project creation..." "INFO",
          emitE (Event.chdir w.project_directory),
          emitE (Event.mkdirP (ProjectWorker.project_path w)),
          emitE (Event.progress 20 "Creating project structure..."),
          checkedProc env (ProjectWorker.create_cmd w) "Failed to create project structure",
          emitE (Event.chdir (ProjectWorker.project_path w)),
          emitE (Event.progress 40 "Installing dependencies..."),
          ProjectWorker.emit_log "Installing core dependencies..." "INFO"] from rfl]
      exact stepOk_stepSeq (by
        intro s hs
        simp only [List.mem_cons, List.not_mem_nil, or_false] at hs
        rcases hs with rfl | rfl | rfl | rfl | rfl | rfl | rfl | rfl | rfl
        · exact stepOk_emitE
        · exact stepOk_emitE
        · exact stepOk_emitE
        · exact stepOk_emitE
        · exact stepOk_emitE
        · exact stepOk_checkedProc hcreate
        · exact stepOk_emitE
        · exact stepOk_emitE
        · exact stepOk_emitE)
    have hA9 : (stepSeq ((ProjectWorker.runSteps w env).take 9)).1 = [
        Event.progress 0 "Initializing project...",
        Event.log "Starting project creation..." "INFO",
        Event.chdir w.project_directory,
        Event.mkdirP (ProjectWorker.project_path w),
        Event.progress 20 "Creating project structure...",
        Event.procCall (ProjectWorker.create_cmd w),
        Event.chdir (ProjectWorker.project_path w),
        Event.progress 40 "Installing dependencies...",
        Event.log "Installing core dependencies..." "INFO"] := by
      simp [ProjectWorker.runSteps, stepSeq, pseq, emitE, pnop, checkedProc,
        ProjectWorker.emit_log, hcreate]
    have hbody1 : (ProjectWorker.runBody w env).1 = [
        Event.progress 0 "Initializing project...",
        Event.log "Starting project creation..." "INFO",
        Event.chdir w.project_directory,
        Event.mkdirP (ProjectWorker.project_path w),
        Event.progress 20 "Creating project structure...",
        Event.procCall (ProjectWorker.create_cmd w),
        Event.chdir (ProjectWorker.project_path w),
        Event.progress 40 "Installing dependencies...",
        Event.log "Installing core dependencies..." "INFO"] ++
        (stepSeq ((ProjectWorker.runSteps w env).drop 9)).1 := by
      rw [hsplit9, pseq_fst_of_ok hok9, hA9]
    obtain ⟨rest, hrun⟩ := run_decompose hbody1
    refine ⟨hcreate, _, rest, hrun, ?_, ?_⟩
    · simp [callsProc, procCallP]
    · simp only [callsProc, procCallP]
      simp only [List.any_eq_false]
      intro x hx
      simp only [List.mem_cons, List.not_mem_nil, or_false] at hx
      rcases hx with rfl | rfl | rfl | rfl | rfl | rfl | rfl | rfl | rfl
      · simp [procCallP]
      · simp [procCallP]
      · simp [procCallP]
      · simp [procCallP]
      · simp [procCallP]
      · simp [procCallP]
        exact create_cmd_ne_install_cmd w
      · simp [procCallP]
      · simp [procCallP]
      · simp [procCallP]
  · -- (c) version-control work is a contiguous final block
    intro _hgit
    have hsplit16 : ProjectWorker.runBody w env =
        pseq (stepSeq ((ProjectWorker.runSteps w env).take 16))
          (stepSeq ((ProjectWorker.runSteps w env).drop 16)) := by
      rw [ProjectWorker.runBody, ← stepSeq_append, List.take_append_drop]
    rcases h16 : (stepSeq ((ProjectWorker.runSteps w env).take 16)).2 with e | u
    · have hpair : ProjectWorker.runBody w env =
          ((stepSeq ((ProjectWorker.runSteps w env).take 16)).1, Except.error e) := by
        rw [hsplit16, pseq_eq_of_error h16]
      have hrun := run_of_body_error hpair
      refine ⟨(stepSeq ((ProjectWorker.runSteps w env).take 16)).1 ++
        [Event.log ("Error: " ++ e) "ERROR", Event.finished false e], [], ?_, ?_, rfl⟩
      · rw [hrun, List.append_nil]
      · rw [List.all_append]
        have h1 := @stepAll_preGit w env
        unfold stepAll at h1
        rw [h1]
        rfl
    · cases u
      rcases hrest : (stepSeq ((ProjectWorker.runSteps w env).drop 16)).2 with e2 | u2
      · have hpair : ProjectWorker.runBody w env =
            ((stepSeq ((ProjectWorker.runSteps w env).take 16)).1 ++
              (stepSeq ((ProjectWorker.runSteps w env).drop 16)).1, Except.error e2) := by
          rw [hsplit16, pseq_eq_of_ok h16, hrest]
        have hrun := run_of_body_error hpair
        refine ⟨(stepSeq ((ProjectWorker.runSteps w env).take 16)).1,
          (stepSeq ((ProjectWorker.runSteps w env).drop 16)).1 ++
            [Event.log ("Error: " ++ e2) "ERROR", Event.finished false e2], ?_, ?_, ?_⟩
        · rw [hrun, List.append_assoc]
        · exact stepAll_preGit
        · rw [List.all_append]
          have h2 := @stepAll_gitTail w env
          unfold stepAll at h2
          rw [h2]
          rfl
      · cases u2
        have hpair : ProjectWorker.runBody w env =
            ((stepSeq ((ProjectWorker.runSteps w env).take 16)).1 ++
              (stepSeq ((ProjectWorker.runSteps w env).drop 16)).1, Except.ok ()) := by
          rw [hsplit16, pseq_eq_of_ok h16, hrest]
        have hrun := run_of_body_ok hpair
        exact ⟨_, _, hrun, stepAll_preGit, stepAll_gitTail⟩

/-- C2, witness: over the default configuration in the all-successful
environment, the install invocation does occur and git integration is
enabled; the theorem yields the three ordering decompositions. -/
theorem C2_witness :
    callsProc (ProjectWorker.install_cmd sampleWorker)
      (ProjectWorker.run sampleWorker envAllOk) = true ∧
    sampleWorker.config.git_integration = true ∧
    envAllOk.proc (ProjectWorker.create_cmd sampleWorker) = true ∧
    (∃ pre rest, ProjectWorker.run sampleWorker envAllOk = pre ++ rest ∧
      Event.mkdirP (ProjectWorker.project_path sampleWorker) ∈ pre ∧
      pre.all (fun e => !(Event.isProcCall e)) = true) ∧
    (∃ pre rest, ProjectWorker.run sampleWorker envAllOk = pre ++ rest ∧
      pre.all (fun e => !(Event.isGitWork e)) = true ∧
      rest.all (fun e => !(Event.isWorkEvent e) || Event.isGitWork e) = true) :=
  ⟨rfl, rfl, ((C2_stage_ordering sampleWorker envAllOk).2.1 rfl).1,
    (C2_stage_ordering sampleWorker envAllOk).1,
    (C2_stage_ordering sampleWorker envAllOk).2.2 rfl⟩

end RPA
